import Mathlib

/-!
# Shallow embedding of the RFQ supplier-matching engine

This file embeds the matching and ranking engine of the RfqMatchmaker backend
(`python_backend/services/supplier_matching.py`,
`python_backend/services/ai_hardware_matching.py` and the parts of
`python_backend/services/compliance_service.py` they call) and proves
properties of the embedded code.

Modelling conventions:

* Python floats are modelled as rationals (`ℚ`).  All properties settled here
  are interval, order and exact-arithmetic properties on small decimal
  constants, which the float/rational gap does not affect.
* A Python dict that the code only ever reads at a fixed set of keys is
  modelled as a structure of `Option` fields; one extra Boolean field
  (`extra`) records whether the dict carries further, unrelated keys, which
  matters only for Python truthiness tests such as `if not product:`.
* Strings are Lean `String`s.  The regular expressions used by the code
  (`\d+`, `i(\d+)`, `ryzen\s*(\d+)`, `(\d+)\s*gb`, `ddr(\d)`,
  `(\d+(\.\d+)?)\s*tb`, `(\d+)\s*(year|yr)`, and the display-size pattern
  whose suffix groups are all optional) are implemented character by
  character with Python's leftmost-match semantics; for these patterns the
  greedy/backtracking behaviour coincides with "maximal digit run, maximal
  whitespace run", which is what the implementations below compute.
* Exceptions are modelled with `Option`: a function that can raise returns
  `none` exactly where the Python code raises (the only reachable raise
  sites in scope are the weight renormalisation dividing by a zero weight
  sum and the monitors `panelTech` comparison calling `.lower()` on `None`).
-/

namespace RfqMatch

/-! ## String helpers (regex fragments used by the services) -/

/-- Numeric value of a list of digit characters (most significant first). -/
def digitsToNat (ds : List Char) : ℕ :=
  ds.foldl (fun a c => 10 * a + (c.toNat - 48)) 0

/-- `re.findall(r'\d+', s)`: all maximal digit runs, left to right.
`acc` carries the value of the digit run currently being read. -/
def findAllNatsAux : List Char → Option ℕ → List ℕ
  | [], none => []
  | [], some n => [n]
  | c :: cs, acc =>
    if c.isDigit then
      findAllNatsAux cs (some ((acc.getD 0) * 10 + (c.toNat - 48)))
    else
      match acc with
      | none => findAllNatsAux cs none
      | some n => n :: findAllNatsAux cs none

/-- `re.findall(r'\d+', s)` on a string. -/
def findAllNats (s : String) : List ℕ :=
  findAllNatsAux s.toList none

/-- Substring containment, Python's `needle in hay`. -/
def containsSub (hay needle : List Char) : Bool :=
  match hay with
  | [] => needle.isEmpty
  | _ :: t => needle.isPrefixOf hay || containsSub t needle

/-- Python's `needle in hay` for strings. -/
def strContains (hay needle : String) : Bool :=
  containsSub hay.toList needle.toList

/-- `re.search`: try the pattern matcher at each start position, leftmost
match wins.  All patterns in scope need at least one character. -/
def scanFirst (f : List Char → Option α) : List Char → Option α
  | [] => none
  | c :: cs => (f (c :: cs)).orElse (fun _ => scanFirst f cs)

/-- Matcher for `i(\d+)` at the current position. -/
def matchINum : List Char → Option ℕ
  | 'i' :: rest =>
    let ds := rest.takeWhile Char.isDigit
    if ds.isEmpty then none else some (digitsToNat ds)
  | _ => none

/-- Matcher for `ryzen\s*(\d+)` at the current position. -/
def matchRyzenNum (l : List Char) : Option ℕ :=
  if ("ryzen".toList).isPrefixOf l then
    let rest := (l.drop 5).dropWhile Char.isWhitespace
    let ds := rest.takeWhile Char.isDigit
    if ds.isEmpty then none else some (digitsToNat ds)
  else none

/-- Matcher for `(\d+)\s*<unit>` (integer capture) at the current position;
`units` lists the alternatives of the unit literal, tried like `(year|yr)`. -/
def matchNatBeforeUnit (units : List (List Char)) (l : List Char) : Option ℕ :=
  let ds := l.takeWhile Char.isDigit
  if ds.isEmpty then none
  else
    let rest := (l.drop ds.length).dropWhile Char.isWhitespace
    if units.any (fun u => u.isPrefixOf rest) then some (digitsToNat ds) else none

/-- Matcher for `ddr(\d)` at the current position (a single digit). -/
def matchDdrNum : List Char → Option ℕ
  | 'd' :: 'd' :: 'r' :: c :: _ => if c.isDigit then some (c.toNat - 48) else none
  | _ => none

/-- Matcher for `\d+(\.\d+)?` at the current position, as a rational. -/
def matchDecimal (l : List Char) : Option ℚ :=
  let ds := l.takeWhile Char.isDigit
  if ds.isEmpty then none
  else
    let intPart : ℚ := (digitsToNat ds : ℚ)
    match l.drop ds.length with
    | '.' :: r2 =>
      let fs := r2.takeWhile Char.isDigit
      if fs.isEmpty then some intPart
      else some (intPart + (digitsToNat fs : ℚ) / ((10 : ℚ) ^ fs.length))
    | _ => some intPart

/-- Matcher for `(\d+(\.\d+)?)\s*<unit>` at the current position. -/
def matchDecimalBeforeUnit (units : List (List Char)) (l : List Char) : Option ℚ :=
  let ds := l.takeWhile Char.isDigit
  if ds.isEmpty then none
  else
    let intPart : ℚ := (digitsToNat ds : ℚ)
    let afterInt := l.drop ds.length
    let (value, rest) : ℚ × List Char :=
      match afterInt with
      | '.' :: r2 =>
        let fs := r2.takeWhile Char.isDigit
        if fs.isEmpty then (intPart, afterInt)
        else (intPart + (digitsToNat fs : ℚ) / ((10 : ℚ) ^ fs.length), r2.drop fs.length)
      | _ => (intPart, afterInt)
    let rest2 := rest.dropWhile Char.isWhitespace
    if units.any (fun u => u.isPrefixOf rest2) then some value else none

/-! ## `parse_delivery_time` (identical in `supplier_matching.py` lines 25-40
and `ai_hardware_matching.py` lines 97-112) -/

/-- `parse_delivery_time(delivery_time)`: average days from a delivery-time
string.  Empty ⇒ 30; no number ⇒ 30; two or more numbers ⇒ average of the
first two; one number ⇒ that number.  (A `None` argument behaves like `""`:
both fail the `if not delivery_time` truthiness test.) -/
def parse_delivery_time (delivery_time : String) : ℚ :=
  if delivery_time = "" then 30
  else
    match findAllNats delivery_time with
    | [] => 30
    | [n] => (n : ℚ)
    | n₁ :: n₂ :: _ => ((n₁ : ℚ) + (n₂ : ℚ)) / 2

/-! ## Spec comparators of `supplier_matching.py` (lines 42-272) -/

/-- `compare_processors(requirement, spec)` (lines 42-94). -/
def compare_processors (requirement spec : String) : ℚ :=
  if requirement = "" ∨ spec = "" then 1/2
  else
    let req_lower := requirement.toLower
    let spec_lower := spec.toLower
    if req_lower = spec_lower then 1
    else
      match scanFirst matchINum req_lower.toList,
            scanFirst matchINum spec_lower.toList with
      | some req_i, some spec_i =>
        if spec_i > req_i then 1
        else if spec_i = req_i then 9/10
        else max (1/2) (1 - ((req_i : ℚ) - (spec_i : ℚ)) * (2/10))
      | _, _ =>
        match scanFirst matchRyzenNum req_lower.toList,
              scanFirst matchRyzenNum spec_lower.toList with
        | some req_r, some spec_r =>
          if spec_r > req_r then 1
          else if spec_r = req_r then 9/10
          else max (1/2) (1 - ((req_r : ℚ) - (spec_r : ℚ)) * (2/10))
        | _, _ =>
          if strContains spec_lower "i7" ∨ strContains spec_lower "i9" ∨
             strContains spec_lower "ryzen 7" ∨ strContains spec_lower "ryzen 9" then
            8/10
          else if strContains spec_lower "i5" ∨ strContains spec_lower "ryzen 5" then
            7/10
          else 6/10

/-- `compare_memory(requirement, spec)` (lines 96-134). -/
def compare_memory (requirement spec : String) : ℚ :=
  if requirement = "" ∨ spec = "" then 1/2
  else
    match scanFirst (matchNatBeforeUnit ["gb".toList]) requirement.toLower.toList,
          scanFirst (matchNatBeforeUnit ["gb".toList]) spec.toLower.toList with
    | some req_gb, some spec_gb =>
      if spec_gb ≥ req_gb then 1
      else max (1/2) (1 - (((req_gb : ℚ) - (spec_gb : ℚ)) / 4) * (2/10))
    | _, _ =>
      match scanFirst matchDdrNum requirement.toLower.toList,
            scanFirst matchDdrNum spec.toLower.toList with
      | some req_ver, some spec_ver =>
        if spec_ver > req_ver then 9/10
        else if spec_ver = req_ver then 8/10
        else max (1/2) (8/10 - ((req_ver : ℚ) - (spec_ver : ℚ)) * (1/10))
      | _, _ => 6/10

/-- `compare_storage(requirement, spec)` (lines 136-184).  The Python local
`req_type_score` is computed but never used, so it is omitted. -/
def compare_storage (requirement spec : String) : ℚ :=
  if requirement = "" ∨ spec = "" then 1/2
  else
    let req_lower := requirement.toLower
    let spec_lower := spec.toLower
    let req_size_gb : ℚ :=
      match scanFirst (matchDecimalBeforeUnit ["tb".toList]) req_lower.toList with
      | some t => t * 1024
      | none =>
        match scanFirst (matchNatBeforeUnit ["gb".toList]) req_lower.toList with
        | some g => (g : ℚ)
        | none => 0
    let spec_size_gb : ℚ :=
      match scanFirst (matchDecimalBeforeUnit ["tb".toList]) spec_lower.toList with
      | some t => t * 1024
      | none =>
        match scanFirst (matchNatBeforeUnit ["gb".toList]) spec_lower.toList with
        | some g => (g : ℚ)
        | none => 0
    let spec_type_score : ℚ :=
      if strContains spec_lower "nvme" then 1
      else if strContains spec_lower "ssd" then 8/10
      else 1/2
    let size_score : ℚ :=
      if 0 < req_size_gb ∧ 0 < spec_size_gb then
        if spec_size_gb ≥ req_size_gb then 1
        else max (1/2) (1 - ((req_size_gb - spec_size_gb) / 256) * (1/10))
      else 7/10
    size_score * (7/10) + spec_type_score * (3/10)

/-- The `res_scores` dict of `compare_display`, in insertion order. -/
def resScores : List (String × ℚ) :=
  [("hd", 3/5), ("1366", 3/5), ("768", 3/5),
   ("fhd", 4/5), ("1080", 4/5), ("1920", 4/5),
   ("qhd", 9/10), ("1440", 9/10), ("2560", 9/10),
   ("4k", 1), ("uhd", 1), ("2160", 1), ("3840", 1)]

/-- The resolution loop of `compare_display` (lines 229-239): iterate over
`res_scores`; a key contained in both strings sets the score and breaks; a
key contained only in the spec re-scans `res_scores` for the first
requirement key with a lower score and records a capped bonus, without
breaking the outer loop. -/
def displayResLoop (req_lower spec_lower : String) :
    List (String × ℚ) → ℚ → ℚ
  | [], acc => acc
  | (key, score) :: rest, acc =>
    if strContains req_lower key ∧ strContains spec_lower key then score
    else if strContains spec_lower key ∧ ¬ strContains req_lower key then
      let acc2 :=
        match resScores.find? (fun kv => strContains req_lower kv.1 ∧ score > kv.2) with
        | some kv => min 1 (kv.2 + 1/10)
        | none => acc
      displayResLoop req_lower spec_lower rest acc2
    else displayResLoop req_lower spec_lower rest acc

/-- `compare_display(requirement, spec)` (lines 186-242).  The size pattern
`(\d+(\.\d+)?)["\'-]?\s*(inch|in)?` has only optional parts after the
number, so its capture group is the first decimal number of the string. -/
def compare_display (requirement spec : String) : ℚ :=
  if requirement = "" ∨ spec = "" then 1/2
  else
    let req_lower := requirement.toLower
    let spec_lower := spec.toLower
    let size_score : ℚ :=
      match scanFirst matchDecimal req_lower.toList,
            scanFirst matchDecimal spec_lower.toList with
      | some req_inches, some spec_inches =>
        if |spec_inches - req_inches| ≤ 1 then 1
        else max (1/2) (1 - |spec_inches - req_inches| * (1/10))
      | _, _ => 7/10
    let res_score : ℚ := displayResLoop req_lower spec_lower resScores (7/10)
    size_score * (4/10) + res_score * (6/10)

/-- `compare_warranty(requirement, spec)` (lines 244-272). -/
def compare_warranty (requirement spec : String) : ℚ :=
  if requirement = "" ∨ spec = "" then 1/2
  else
    match scanFirst (matchNatBeforeUnit ["year".toList, "yr".toList])
            requirement.toLower.toList,
          scanFirst (matchNatBeforeUnit ["year".toList, "yr".toList])
            spec.toLower.toList with
    | some req_period, some spec_period =>
      if spec_period ≥ req_period then 1
      else max (1/2) (1 - ((req_period : ℚ) - (spec_period : ℚ)) * (1/4))
    | _, _ =>
      let warranty_type_score : ℚ :=
        if strContains spec.toLower "onsite" then 9/10 else 3/5
      if strContains spec.toLower "next day" ∨ strContains spec.toLower "nbd" then 1
      else warranty_type_score

/-! ## Dict models for `ai_hardware_matching.py`

The AI-hardware service passes products, suppliers and requirements around as
plain dicts and reads them at a fixed set of keys; each dict is modelled as a
structure of `Option` fields plus an `extra` flag for unrelated keys (which
only affects Python truthiness). -/

/-- A specification bag: the union of the keys the AI-hardware comparators
read from `computeSpecs` / `memorySpecs` / `powerConsumption` /
`specifications`, together with the string keys the laptop/monitor
comparators of `supplier_matching.py` read from `specifications`. -/
structure SpecDict where
  fp32Performance : Option ℚ := none
  tensorCores : Option ℤ := none
  cudaCores : Option ℤ := none
  int8Performance : Option ℚ := none
  fp16Performance : Option ℚ := none
  capacity : Option ℚ := none
  bandwidth : Option ℚ := none
  mtype : Option String := none          -- the `type` key
  tdp : Option ℚ := none
  supportedFrameworks : Option (List String) := none
  processor : Option String := none
  memory : Option String := none
  storage : Option String := none
  display : Option String := none
  screenSize : Option String := none
  resolution : Option String := none
  panelTech : Option String := none
  extra : Bool := false
  deriving DecidableEq

/-- Python truthiness of the dict: non-empty. -/
def SpecDict.truthy (d : SpecDict) : Bool :=
  d.fp32Performance.isSome || d.tensorCores.isSome || d.cudaCores.isSome ||
  d.int8Performance.isSome || d.fp16Performance.isSome || d.capacity.isSome ||
  d.bandwidth.isSome || d.mtype.isSome || d.tdp.isSome ||
  d.supportedFrameworks.isSome || d.processor.isSome || d.memory.isSome ||
  d.storage.isSome || d.display.isSome || d.screenSize.isSome ||
  d.resolution.isSome || d.panelTech.isSome || d.extra

/-- The `complianceInfo` dict. -/
structure ComplianceInfo where
  restrictedCountries : Option (List String) := none
  exportRestrictions : Option (List String) := none
  extra : Bool := false
  deriving DecidableEq

/-- A product dict: the keys read by `ai_hardware_matching.py` and
`compliance_service.py`. -/
structure ProductDict where
  price : Option ℚ := none
  inStock : Option Bool := none
  computeSpecs : Option SpecDict := none
  memorySpecs : Option SpecDict := none
  powerConsumption : Option SpecDict := none
  specifications : Option SpecDict := none
  supportedFrameworks : Option (List String) := none
  complianceInfo : Option ComplianceInfo := none
  extra : Bool := false
  deriving DecidableEq

def ProductDict.truthy (d : ProductDict) : Bool :=
  d.price.isSome || d.inStock.isSome || d.computeSpecs.isSome ||
  d.memorySpecs.isSome || d.powerConsumption.isSome ||
  d.specifications.isSome || d.supportedFrameworks.isSome ||
  d.complianceInfo.isSome || d.extra

/-- A supplier dict: the keys read by the AI-hardware scoring code. -/
structure SupplierDict where
  country : Option String := none
  leadTime : Option ℤ := none
  deliveryTime : Option String := none
  extra : Bool := false
  deriving DecidableEq

def SupplierDict.truthy (d : SupplierDict) : Bool :=
  d.country.isSome || d.leadTime.isSome || d.deliveryTime.isSome || d.extra

/-- The combined AI-hardware requirements dict (`{**aiHardware, **gpuRequirements}`
in `calculate_match_score`): the keys the compare functions read. -/
structure HwReq where
  minComputePower : Option ℚ := none
  minTensorCores : Option ℤ := none
  minCudaCores : Option ℤ := none
  minInt8Performance : Option ℚ := none
  minFp16Performance : Option ℚ := none
  minMemory : Option ℚ := none
  minMemoryBandwidth : Option ℚ := none
  memoryType : Option String := none
  frameworks : Option (List String) := none
  powerConstraints : Option ℚ := none
  quantity : Option ℤ := none
  extra : Bool := false
  deriving DecidableEq

def HwReq.truthy (d : HwReq) : Bool :=
  d.minComputePower.isSome || d.minTensorCores.isSome || d.minCudaCores.isSome ||
  d.minInt8Performance.isSome || d.minFp16Performance.isSome ||
  d.minMemory.isSome || d.minMemoryBandwidth.isSome || d.memoryType.isSome ||
  d.frameworks.isSome || d.powerConstraints.isSome || d.quantity.isSome || d.extra

/-- `{**ai_hw_reqs, **gpu_reqs}`: keys of the second dict win. -/
def mergeHwReq (a b : HwReq) : HwReq where
  minComputePower := b.minComputePower <|> a.minComputePower
  minTensorCores := b.minTensorCores <|> a.minTensorCores
  minCudaCores := b.minCudaCores <|> a.minCudaCores
  minInt8Performance := b.minInt8Performance <|> a.minInt8Performance
  minFp16Performance := b.minFp16Performance <|> a.minFp16Performance
  minMemory := b.minMemory <|> a.minMemory
  minMemoryBandwidth := b.minMemoryBandwidth <|> a.minMemoryBandwidth
  memoryType := b.memoryType <|> a.memoryType
  frameworks := b.frameworks <|> a.frameworks
  powerConstraints := b.powerConstraints <|> a.powerConstraints
  quantity := b.quantity <|> a.quantity
  extra := a.extra || b.extra

/-- Truthiness of Python `supplier.get("leadTime")` (an int: 0 is falsy). -/
def optIntTruthy (o : Option ℤ) : Bool := o.elim false (· ≠ 0)

/-- Truthiness of an optional string (empty string is falsy). -/
def optStrTruthy (o : Option String) : Bool := o.elim false (· ≠ "")

/-- The specs-dict resolution pattern shared by the AI-hardware comparators:
`specs = product.get(<key>, {}); if not specs and "specifications" in
product: specs = product.get("specifications", {})`. -/
def resolveSpecs (primary : Option SpecDict) (product : ProductDict) : SpecDict :=
  let d := primary.getD {}
  if ¬ d.truthy ∧ product.specifications.isSome then product.specifications.getD {}
  else d

/-! ## AI-hardware comparators (`ai_hardware_matching.py` lines 114-416) -/

/-- Index of the first occurrence of `x`, `list.index` without the raise
(`none` models `ValueError`). -/
def listIdx? [DecidableEq α] (x : α) : List α → Option ℕ
  | [] => none
  | y :: ys => if y = x then some 0 else (listIdx? x ys).map (· + 1)

/-- The "keep only metrics away from neutral `0.5`, then weighted-average,
defaulting to `0.5`" pattern of `compare_compute_performance` (lines
200-220) and `compare_memory_specs` (lines 302-318).  In Python the list is
built by appending exactly the `(score, weight)` pairs with `score != 0.5`,
in the fixed metric order — i.e. a filter of the full metric list. -/
def weightedAvgOrHalf (metrics : List (ℚ × ℚ)) : ℚ :=
  let scores := metrics.filter (fun x => decide (x.1 ≠ 1/2))
  if scores = [] then 1/2
  else ((scores.map (fun x => x.1 * x.2)).sum) / ((scores.map Prod.snd).sum)

/-- The fp32 block of `compare_compute_performance` (lines 141-154). -/
def fp32MetricScore (compute_specs : SpecDict) (required : HwReq) : ℚ :=
  match compute_specs.fp32Performance, required.minComputePower with
  | some prod_fp32, some req_fp32 =>
    if prod_fp32 ≥ req_fp32 * (15/10) then 1
    else if prod_fp32 ≥ req_fp32 then 9/10
    else if prod_fp32 ≥ req_fp32 * (8/10) then 7/10
    else if prod_fp32 ≥ req_fp32 * (6/10) then 1/2
    else 3/10
  | _, _ => 1/2

/-- The shared shape of the tensor-cores and CUDA-cores blocks (lines
157-176): full score when met, otherwise a linear shortfall floored at
`0.5`.  (With a requirement of `0` and a smaller product value Python would
raise `ZeroDivisionError`; `ℚ` division by zero yields `0` instead, which
the positivity hypotheses of the theorems below rule out.) -/
def coreMetricScore (prodCores reqCores : Option ℤ) : ℚ :=
  match prodCores, reqCores with
  | some prod_cores, some req_cores =>
    if prod_cores ≥ req_cores then 1
    else max (1/2) (1 - ((req_cores : ℚ) - (prod_cores : ℚ)) / (req_cores : ℚ))
  | _, _ => 1/2

/-- The shared shape of the int8 and fp16 blocks (lines 179-198). -/
def ratioMetricScore (prodVal reqVal : Option ℚ) : ℚ :=
  match prodVal, reqVal with
  | some prod_val, some req_val =>
    if prod_val ≥ req_val then 1
    else max (1/2) (1 - (req_val - prod_val) / req_val)
  | _, _ => 1/2

/-- `compare_compute_performance(required, product)` (lines 114-220): a
metric contributes to the weighted average only when its score moved away
from the neutral `0.5`. -/
def compare_compute_performance (required : HwReq) (product : ProductDict) : ℚ :=
  if ¬ required.truthy ∨ ¬ product.truthy then 1/2
  else
    let compute_specs := resolveSpecs product.computeSpecs product
    if ¬ compute_specs.truthy then 1/2
    else
      weightedAvgOrHalf
        [(fp32MetricScore compute_specs required, 4/10),
         (coreMetricScore compute_specs.tensorCores required.minTensorCores, 15/100),
         (coreMetricScore compute_specs.cudaCores required.minCudaCores, 15/100),
         (ratioMetricScore compute_specs.int8Performance required.minInt8Performance, 15/100),
         (ratioMetricScore compute_specs.fp16Performance required.minFp16Performance, 15/100)]

/-- The `memory_types_ranked` list of `compare_memory_specs`. -/
def memoryTypesRanked : List String :=
  ["gddr5", "gddr5x", "gddr6", "gddr6x", "hbm2", "hbm2e", "hbm3"]

/-- The capacity block of `compare_memory_specs` (lines 249-262). -/
def capacityMetricScore (memory_specs : SpecDict) (required : HwReq) : ℚ :=
  match memory_specs.capacity, required.minMemory with
  | some prod_capacity, some req_capacity =>
    if prod_capacity ≥ req_capacity * (15/10) then 1
    else if prod_capacity ≥ req_capacity then 9/10
    else if prod_capacity ≥ req_capacity * (8/10) then 7/10
    else if prod_capacity ≥ req_capacity * (6/10) then 1/2
    else 3/10
  | _, _ => 1/2

/-- The bandwidth block of `compare_memory_specs` (lines 265-276). -/
def bandwidthMetricScore (memory_specs : SpecDict) (required : HwReq) : ℚ :=
  match memory_specs.bandwidth, required.minMemoryBandwidth with
  | some prod_bandwidth, some req_bandwidth =>
    if prod_bandwidth ≥ req_bandwidth * (13/10) then 1
    else if prod_bandwidth ≥ req_bandwidth then 9/10
    else if prod_bandwidth ≥ req_bandwidth * (8/10) then 7/10
    else 1/2
  | _, _ => 1/2

/-- The memory-type block of `compare_memory_specs` (lines 279-300);
a `ValueError` from `list.index` is the `| _, _ => 6/10` case. -/
def memTypeMetricScore (memory_specs : SpecDict) (required : HwReq) : ℚ :=
  match memory_specs.mtype, required.memoryType with
  | some pt, some rt =>
    let req_type := rt.toLower
    let prod_type := pt.toLower
    if req_type = prod_type then 1
    else
      match listIdx? req_type memoryTypesRanked,
            listIdx? prod_type memoryTypesRanked with
      | some req_index, some prod_index =>
        if prod_index > req_index then 1
        else max (1/2) (1 - ((req_index : ℚ) - (prod_index : ℚ)) * (15/100))
      | _, _ => 6/10
  | _, _ => 1/2

/-- `compare_memory_specs(required, product)` (lines 222-318). -/
def compare_memory_specs (required : HwReq) (product : ProductDict) : ℚ :=
  if ¬ required.truthy ∨ ¬ product.truthy then 1/2
  else
    let memory_specs := resolveSpecs product.memorySpecs product
    if ¬ memory_specs.truthy then 1/2
    else
      weightedAvgOrHalf
        [(capacityMetricScore memory_specs required, 5/10),
         (bandwidthMetricScore memory_specs required, 3/10),
         (memTypeMetricScore memory_specs required, 2/10)]

/-- `compare_power_specs(required, product)` (lines 320-359). -/
def compare_power_specs (required : HwReq) (product : ProductDict) : ℚ :=
  if ¬ required.truthy ∨ ¬ product.truthy then 1/2
  else
    let power_specs := resolveSpecs product.powerConsumption product
    if ¬ power_specs.truthy then 1/2
    else
      match power_specs.tdp, required.powerConstraints with
      | some product_tdp, some max_tdp =>
        if product_tdp ≤ max_tdp * (8/10) then 1
        else if product_tdp ≤ max_tdp then 9/10
        else if product_tdp ≤ max_tdp * (11/10) then 7/10
        else if product_tdp ≤ max_tdp * (12/10) then 1/2
        else 3/10
      | _, _ => 1/2

/-- `compare_framework_support(required, product)` (lines 361-416). -/
def compare_framework_support (required : HwReq) (product : ProductDict) : ℚ :=
  if ¬ required.truthy ∨ ¬ product.truthy then 1/2
  else
    let frameworks0 := product.supportedFrameworks.getD []
    let frameworks :=
      if frameworks0.isEmpty ∧ product.specifications.isSome then
        match (product.specifications.getD {}).supportedFrameworks with
        | some fs => fs
        | none => frameworks0
      else frameworks0
    if frameworks.isEmpty ∨ required.frameworks.isNone then 1/2
    else
      let required_frameworks := required.frameworks.getD []
      if required_frameworks.isEmpty then 1/2
      else
        let supported_count := required_frameworks.countP
          (fun rf => frameworks.any (fun f => strContains f.toLower rf.toLower))
        let support_ratio : ℚ := (supported_count : ℚ) / (required_frameworks.length : ℚ)
        if support_ratio = 1 then 1
        else if support_ratio ≥ 8/10 then 9/10
        else if support_ratio ≥ 6/10 then 8/10
        else if support_ratio ≥ 4/10 then 7/10
        else if support_ratio > 0 then 6/10
        else 4/10

/-! ## Compliance gate (`compliance_service.py` lines 568-639 and
`ai_hardware_matching.py` lines 418-472) -/

/-- Result dict of `check_product_shipping_restrictions`. -/
structure ShippingResult where
  can_ship : Bool
  restrictions : List String
  requires_license : Bool
  required_documents : List String
  deriving DecidableEq

/-- The sensitive-country list used for export-restriction licensing. -/
def sensitiveCountries : List String :=
  ["China", "Russia", "Iran", "Belarus", "North Korea",
   "Syria", "Venezuela", "Cuba", "Myanmar", "Afghanistan"]

/-- `check_product_shipping_restrictions(product_specs, destination_country)`
(`compliance_service.py` lines 568-639).  The GPU restriction thresholds are
32 GB capacity, 800 GB/s bandwidth, 50 TFLOPS fp32 and 400 TOPS int8. -/
def check_product_shipping_restrictions (product_specs : ProductDict)
    (destination_country : String) : ShippingResult :=
  let compliance_info := product_specs.complianceInfo.getD {}
  let restricted_countries := compliance_info.restrictedCountries.getD []
  -- manufacturer country restrictions
  let r1 : ShippingResult :=
    if restricted_countries.contains destination_country then
      { can_ship := false,
        restrictions := ["Product cannot be shipped to " ++ destination_country ++
          " due to manufacturer restrictions"],
        requires_license := false, required_documents := [] }
    else
      { can_ship := true, restrictions := [], requires_license := false,
        required_documents := [] }
  -- export restrictions for sensitive destinations
  let export_restrictions := compliance_info.exportRestrictions.getD []
  let r2 : ShippingResult :=
    if ¬ export_restrictions.isEmpty ∧ sensitiveCountries.contains destination_country then
      { r1 with
        requires_license := true,
        required_documents := r1.required_documents ++
          ["Export license from origin country", "End-user certificate",
           "Statement of end use"],
        restrictions :=
          if r1.restrictions.isEmpty then
            ["Product requires export license for shipping to " ++ destination_country]
          else r1.restrictions }
    else r1
  -- high-performance hardware
  let compute_specs := product_specs.computeSpecs.getD {}
  let memory_specs := product_specs.memorySpecs.getD {}
  let is_high_performance :=
    memory_specs.capacity.getD 0 ≥ 32 ∨ memory_specs.bandwidth.getD 0 ≥ 800 ∨
    compute_specs.fp32Performance.getD 0 ≥ 50 ∨ compute_specs.int8Performance.getD 0 ≥ 400
  if is_high_performance then
    let r3 :=
      if ¬ r2.requires_license then
        { r2 with
          requires_license := true,
          required_documents := r2.required_documents ++
            ["Export license from origin country", "End-user certificate"] }
      else r2
    if ["China", "Russia", "Iran", "Belarus", "North Korea", "Syria"].contains
        destination_country then
      { r3 with
        can_ship := false,
        restrictions := r3.restrictions ++
          ["High-performance AI hardware cannot be shipped to " ++
           destination_country ++ " under current regulations"] }
    else r3
  else r2

/-- `check_compliance_match(buyer_country, product, supplier)`
(`ai_hardware_matching.py` lines 418-472), returning `(score, notes)`.
The high-memory note interpolates the capacity number; Python formats a
float (e.g. `40.0`) where `toString` on `ℚ` gives `40` — no claim touches
that note's text. -/
def check_compliance_match (buyer_country : String) (product : ProductDict)
    (supplier : SupplierDict) : ℚ × String :=
  if buyer_country = "" ∨ ¬ product.truthy ∨ ¬ supplier.truthy then
    (1/2, "Insufficient data for compliance check")
  else
    let compliance_info := product.complianceInfo.getD {}
    let restricted_countries := compliance_info.restrictedCountries.getD []
    if restricted_countries.contains buyer_country then
      (0, "Export to " ++ buyer_country ++ " is restricted for this product")
    else
      let supplier_country := supplier.country.getD "Unknown"
      if buyer_country = "Russia" ∧ supplier_country = "United States" then
        (1/10, "US suppliers are heavily restricted for Russian buyers")
      else if buyer_country = "China" ∧ supplier_country = "United States" then
        (3/10, "Some US AI hardware exports to China are restricted")
      else if buyer_country = "Iran" ∧
          (supplier_country = "United States" ∨ supplier_country = "European Union") then
        (0, "Exports from " ++ supplier_country ++ " to Iran are prohibited")
      else
        let memory_specs := product.memorySpecs.getD {}
        if memory_specs.truthy ∧ memory_specs.capacity.isSome ∧
            memory_specs.capacity.getD 0 ≥ 32 ∧
            ["China", "Russia", "Iran", "North Korea", "Syria"].contains buyer_country then
          (2/10, "High-memory GPU (>" ++ toString (memory_specs.capacity.getD 0) ++
            "GB) exports to " ++ buyer_country ++ " likely require special licensing")
        else
          let shipping_restrictions := check_product_shipping_restrictions product buyer_country
          if ¬ shipping_restrictions.can_ship then
            (0, String.intercalate "; " shipping_restrictions.restrictions)
          else if shipping_restrictions.requires_license then
            (4/10, "Export license required for shipping to " ++ buyer_country)
          else if supplier_country = buyer_country then
            (1, "Local supplier, no export restrictions")
          else
            (8/10, "Standard international shipping rules apply")

/-! ## AI-hardware score aggregation (`ai_hardware_matching.py` lines 474-604) -/

/-- The `criteria` dict of an AI-hardware requirements payload: per criterion
the `weight` entry, when given (an absent criterion dict and a criterion
dict without a `weight` key behave identically through
`criteria.get(c, {}).get("weight", default)`). -/
structure AiCriteria where
  price : Option ℚ := none
  performance : Option ℚ := none
  compatibility : Option ℚ := none
  availability : Option ℚ := none
  compliance : Option ℚ := none
  deriving DecidableEq

/-- The AI-hardware requirements dict: keys read by `calculate_match_score`,
`get_quantity_for_category` and `match_suppliers_for_rfq`. -/
structure AiReqDict where
  categories : Option (List String) := none
  aiHardware : Option HwReq := none
  gpuRequirements : Option HwReq := none
  GPUs : Option HwReq := none
  criteria : Option AiCriteria := none
  deriving DecidableEq

/-- The five criterion weights, already divided by 100 (lines 569-574). -/
structure Weights5 where
  price : ℚ
  performance : ℚ
  compatibility : ℚ
  availability : ℚ
  compliance : ℚ
  deriving DecidableEq

def aiRawWeights (criteria : Option AiCriteria) : Weights5 :=
  let c := criteria.getD {}
  { price := c.price.getD 25 / 100,
    performance := c.performance.getD 40 / 100,
    compatibility := c.compatibility.getD 15 / 100,
    availability := c.availability.getD 10 / 100,
    compliance := c.compliance.getD 10 / 100 }

def Weights5.total (w : Weights5) : ℚ :=
  w.price + w.performance + w.compatibility + w.availability + w.compliance

/-- Lines 576-583: `if total_weight != 1` divide every weight by the total;
dividing by a zero total raises `ZeroDivisionError` (modelled as `none`). -/
def aiNormWeights (criteria : Option AiCriteria) : Option Weights5 :=
  let w := aiRawWeights criteria
  if w.total = 1 then some w
  else if w.total = 0 then none
  else some
    { price := w.price / w.total,
      performance := w.performance / w.total,
      compatibility := w.compatibility / w.total,
      availability := w.availability / w.total,
      compliance := w.compliance / w.total }

/-- The simple price heuristic of lines 521-532. -/
def aiPriceScore (price : Option ℚ) : ℚ :=
  match price with
  | some p =>
    if p < 1000 then 9/10
    else if p < 5000 then 8/10
    else if p < 10000 then 7/10
    else if p < 20000 then 6/10
    else 1/2
  | none => 1/2

/-- The availability heuristic of lines 534-562. -/
def aiAvailabilityScore (supplier : SupplierDict) (product : ProductDict) : ℚ :=
  if optIntTruthy supplier.leadTime then
    let lead_time := supplier.leadTime.getD 0
    if lead_time ≤ 7 then 1
    else if lead_time ≤ 14 then 9/10
    else if lead_time ≤ 30 then 8/10
    else if lead_time ≤ 60 then 6/10
    else 4/10
  else if optStrTruthy supplier.deliveryTime then
    let delivery_days := parse_delivery_time (supplier.deliveryTime.getD "")
    if delivery_days ≤ 7 then 1
    else if delivery_days ≤ 14 then 9/10
    else if delivery_days ≤ 30 then 8/10
    else if delivery_days ≤ 60 then 6/10
    else 4/10
  else if product.inStock.getD true then 8/10 else 4/10

/-- The detailed score breakdown of `calculate_match_score` (scaled to
0-100, lines 594-602). -/
structure AiScoreDetails where
  price : ℚ
  performance : ℚ
  compatibility : ℚ
  availability : ℚ
  compliance : ℚ
  compliance_notes : String
  deriving DecidableEq

/-- `hw_requirements = {**ai_hw_reqs, **gpu_reqs}` (lines 500-505). -/
def aiHwOf (requirements : AiReqDict) : HwReq :=
  mergeHwReq (requirements.aiHardware.getD {}) (requirements.gpuRequirements.getD {})

/-- `compatibility_score` (line 516): memory, framework and power
compatibility at fixed 0.4/0.3/0.3 weights. -/
def aiCompatibilityScore (hw_requirements : HwReq) (product : ProductDict) : ℚ :=
  compare_memory_specs hw_requirements product * (4/10) +
  compare_framework_support hw_requirements product * (3/10) +
  compare_power_specs hw_requirements product * (3/10)

/-- `calculate_match_score(product, supplier, requirements, buyer_country)`
(`ai_hardware_matching.py` lines 474-604): `(overall score, breakdown)`, or
`none` where the Python code raises `ZeroDivisionError` because the five
criterion weights sum to zero. -/
def calculate_match_score (product : ProductDict) (supplier : SupplierDict)
    (requirements : AiReqDict) (buyer_country : String) :
    Option (ℚ × AiScoreDetails) :=
  let performance_score := compare_compute_performance (aiHwOf requirements) product
  let compatibility_score := aiCompatibilityScore (aiHwOf requirements) product
  let price_score := aiPriceScore product.price
  let availability_score := aiAvailabilityScore supplier product
  let compliance := check_compliance_match buyer_country product supplier
  match aiNormWeights requirements.criteria with
  | none => none
  | some w =>
    let overall_score :=
      (price_score * w.price +
       performance_score * w.performance +
       compatibility_score * w.compatibility +
       availability_score * w.availability +
       compliance.1 * w.compliance) * 100
    some (overall_score,
      { price := price_score * 100,
        performance := performance_score * 100,
        compatibility := compatibility_score * 100,
        availability := availability_score * 100,
        compliance := compliance.1 * 100,
        compliance_notes := compliance.2 })

/-- The positivity side condition making the "reduce by 10% per 10% below
requirement" formulas of `compare_compute_performance` well behaved (and,
in Python, free of `ZeroDivisionError`): required minima, when present,
are positive. -/
def HwReq.posMinima (h : HwReq) : Prop :=
  (∀ n : ℤ, h.minTensorCores = some n → 0 < n) ∧
  (∀ n : ℤ, h.minCudaCores = some n → 0 < n) ∧
  (∀ v : ℚ, h.minInt8Performance = some v → 0 < v) ∧
  (∀ v : ℚ, h.minFp16Performance = some v → 0 < v)

/-! ## Typed schema models (`models/schemas.py`) used by `supplier_matching.py`
and by the storage layer.  Fields the engine never reads are omitted. -/

/-- `LaptopRequirements`: pydantic model, every spec field optional.
`hasattr(category_req, <field>)` is always true on it. -/
structure LaptopRequirements where
  quantity : ℤ := 1
  processor : Option String := none
  memory : Option String := none
  storage : Option String := none
  display : Option String := none
  warranty : Option String := none
  deriving DecidableEq

/-- `MonitorRequirements`. -/
structure MonitorRequirements where
  quantity : ℤ := 1
  screenSize : Option String := none
  resolution : Option String := none
  panelTech : Option String := none
  warranty : Option String := none
  deriving DecidableEq

/-- `AwardCriteria`: per criterion the `weight` entry of its dict
(`criteria.price.get("weight", 50)` reads it with a default). -/
structure AwardCriteria where
  price : Option ℚ := none
  quality : Option ℚ := none
  delivery : Option ℚ := none
  deriving DecidableEq

/-- `ExtractedRequirement` (the fields the matching engine reads). -/
structure ExtractedRequirement where
  categories : List String := []
  laptops : Option LaptopRequirements := none
  monitors : Option MonitorRequirements := none
  criteria : AwardCriteria := {}
  deriving DecidableEq

/-- `Supplier` (the fields the matching engine reads). -/
structure Supplier where
  id : ℤ
  name : String := ""
  country : String := ""
  deliveryTime : String := ""
  deriving DecidableEq

/-- `Product` (the fields the matching engine reads).  `specifications` is
the loosely-typed spec dict. -/
structure Product where
  id : ℤ
  supplierId : ℤ
  name : String := ""
  category : String := ""
  price : ℚ
  specifications : SpecDict := {}
  warranty : String := ""
  deriving DecidableEq

/-! ## `supplier_matching.calculate_match_score` (lines 274-397) -/

/-- The breakdown dict of the supplier-matching score. -/
structure SmDetails where
  price : ℚ
  quality : ℚ
  delivery : ℚ
  deriving DecidableEq

/-- The laptops quality-factor list (lines 311-335).  `hasattr` on a
pydantic model is always true, so only the presence of the spec key on the
product side gates a factor; the warranty factor is always appended
(`hasattr(product, "warranty")` is also always true).  A `None` requirement
field passed into a comparator behaves like `""` (both merely fail the
comparator's truthiness guard). -/
def laptopQualityFactors (category_req : LaptopRequirements) (specs : SpecDict)
    (product : Product) : List (String × ℚ) :=
  (match specs.processor with
   | some sp => [("processor", compare_processors (category_req.processor.getD "") sp * 100)]
   | none => []) ++
  (match specs.memory with
   | some sp => [("memory", compare_memory (category_req.memory.getD "") sp * 100)]
   | none => []) ++
  (match specs.storage with
   | some sp => [("storage", compare_storage (category_req.storage.getD "") sp * 100)]
   | none => []) ++
  (match specs.display with
   | some sp => [("display", compare_display (category_req.display.getD "") sp * 100)]
   | none => []) ++
  [("warranty", compare_warranty (category_req.warranty.getD "") product.warranty * 100)]

/-- The monitors quality-factor list (lines 337-359).  `none` models the
`AttributeError` raised by `category_req.panelTech.lower()` when the
product has a `panelTech` spec but the requirement's `panelTech` is
`None`. -/
def monitorQualityFactors (category_req : MonitorRequirements) (specs : SpecDict)
    (product : Product) : Option (List (String × ℚ)) :=
  let base :=
    (match specs.screenSize with
     | some sp => [("screenSize", compare_display (category_req.screenSize.getD "") sp * 100)]
     | none => []) ++
    (match specs.resolution with
     | some sp => [("resolution", compare_display (category_req.resolution.getD "") sp * 100)]
     | none => [])
  match specs.panelTech with
  | none =>
    some (base ++
      [("warranty", compare_warranty (category_req.warranty.getD "") product.warranty * 100)])
  | some sp =>
    match category_req.panelTech with
    | none => none
    | some rp =>
      let panel_score : ℚ :=
        if sp.toLower = rp.toLower then 100
        else if strContains sp.toLower "ips" ∧ ¬ strContains rp.toLower "ips" then 90
        else 70
      some (base ++ [("panelTech", panel_score)] ++
        [("warranty", compare_warranty (category_req.warranty.getD "") product.warranty * 100)])

/-- The delivery-day banding of lines 366-383. -/
def smDeliveryScore (deliveryTime : String) : ℚ :=
  let delivery_days := parse_delivery_time deliveryTime
  if delivery_days ≤ 7 then 100
  else if delivery_days ≤ 14 then 90
  else if delivery_days ≤ 21 then 80
  else if delivery_days ≤ 30 then 70
  else if delivery_days ≤ 45 then 60
  else 50

/-- The price banding of lines 293-305. -/
def smPriceScore (price : ℚ) : ℚ :=
  if price ≤ 500 then 90
  else if price ≤ 1000 then 75
  else if price ≤ 1500 then 60
  else 40

/-- Aggregation of lines 361-397 given the quality-factor list: mean
quality (default 50 when no factor applies), banded delivery score and the
weighted total.  Note the applied weights are `weight / 100` with no
renormalisation. -/
def smAssemble (product : Product) (supplier : Supplier)
    (requirements : ExtractedRequirement) (qf : List (String × ℚ)) :
    ℚ × SmDetails :=
  let price_weight := requirements.criteria.price.getD 50
  let quality_weight := requirements.criteria.quality.getD 30
  let delivery_weight := requirements.criteria.delivery.getD 20
  let price_score := smPriceScore product.price
  let quality_score : ℚ :=
    if qf.isEmpty then 50 else ((qf.map Prod.snd).sum) / (qf.length : ℚ)
  let delivery_score := smDeliveryScore supplier.deliveryTime
  let total_score :=
    price_score * (price_weight / 100) +
    quality_score * (quality_weight / 100) +
    delivery_score * (delivery_weight / 100)
  (total_score,
    { price := price_score, quality := quality_score, delivery := delivery_score })

/-- `supplier_matching.calculate_match_score(product, supplier, requirements,
category)` (lines 274-397): `(total score, breakdown)`, or `none` where the
Python code raises (monitors `panelTech` case, see
`monitorQualityFactors`).  When no category requirement applies the early
return at line 286 yields the 50-point defaults. -/
def smCalculateMatchScore (product : Product) (supplier : Supplier)
    (requirements : ExtractedRequirement) (category : String) :
    Option (ℚ × SmDetails) :=
  if category.toLower = "laptops" ∧ requirements.laptops.isSome then
    some (smAssemble product supplier requirements
      (laptopQualityFactors (requirements.laptops.getD {}) product.specifications product))
  else if category.toLower = "monitors" ∧ requirements.monitors.isSome then
    (monitorQualityFactors (requirements.monitors.getD {}) product.specifications product).map
      (smAssemble product supplier requirements)
  else some (50, { price := 50, quality := 50, delivery := 50 })

/-- `get_quantity_for_category` of `supplier_matching.py` (lines 399-405). -/
def smGetQuantity (requirements : ExtractedRequirement) (category : String) : ℤ :=
  if category.toLower = "laptops" ∧ requirements.laptops.isSome then
    (requirements.laptops.getD {}).quantity
  else if category.toLower = "monitors" ∧ requirements.monitors.isSome then
    (requirements.monitors.getD {}).quantity
  else 1

/-! ## The ranker: Python `list.sort(key=lambda x: x.matchScore, reverse=True)`

Python's sort is stable; the stable insertion sort below produces the same
list as any stable sort by the same descending key. -/

def insertDescBy (key : α → ℚ) (m : α) : List α → List α
  | [] => [m]
  | x :: xs => if key x ≤ key m then m :: x :: xs else x :: insertDescBy key m xs

def sortDescBy (key : α → ℚ) : List α → List α
  | [] => []
  | x :: xs => insertDescBy key x (sortDescBy key xs)

/-! ## Pipeline of `supplier_matching.match_suppliers_for_rfq` (lines 434-658) -/

/-- One result of the semantic-search collaborator
(`vector_service.search_rfq_requirements`). -/
structure SemRes where
  product_id : Option ℤ := none
  score : Option ℚ := none
  deriving DecidableEq

/-- A stored RFQ as the supplier-matching engine reads it (requirements may
be missing or fail to parse: `none`). -/
structure SmRfq where
  id : ℤ
  extractedRequirements : Option ExtractedRequirement := none
  deriving DecidableEq

/-- The read-only storage as seen by one matching run. -/
structure SmStorage where
  rfqs : List SmRfq := []
  products : List Product := []
  suppliers : List Supplier := []
  deriving DecidableEq

/-- `get_products_by_category`: SQL `ilike '%category%'`, i.e.
case-insensitive substring match on the product's category. -/
def productsByCategory (products : List Product) (category : String) : List Product :=
  products.filter (fun p => strContains p.category.toLower category.toLower)

def findSupplier (suppliers : List Supplier) (id : ℤ) : Option Supplier :=
  suppliers.find? (fun s => s.id == id)

def findProduct (products : List Product) (id : ℤ) : Option Product :=
  products.find? (fun p => p.id == id)

/-- One supplier match of the supplier-matching pipeline (`SupplierMatch`
with the `matchDetails` dict flattened; the semantic entry exists only on
the semantic path). -/
structure SmMatch where
  supplier : Supplier
  product : Product
  matchScore : ℚ
  detailsPrice : ℚ
  detailsQuality : ℚ
  detailsDelivery : ℚ
  detailsSemantic : Option ℚ := none
  totalPrice : ℚ
  deriving DecidableEq

/-- The semantic-result loop (lines 509-585).  Returns the matches created
before any uncaught exception, and whether such an exception occurred
(`smCalculateMatchScore = none`, an `AttributeError` that the inner
`except (ValueError, TypeError)` does not catch, so the surrounding
vector-search `try` aborts to the traditional fallback). -/
def smSemanticRun (storage : SmStorage) (req : ExtractedRequirement)
    (category : String) : List SemRes → List SmMatch × Bool
  | [] => ([], false)
  | r :: rest =>
    match r.product_id with
    | none => smSemanticRun storage req category rest
    | some pid =>
      match findProduct storage.products pid with
      | none => smSemanticRun storage req category rest
      | some product =>
        match findSupplier storage.suppliers product.supplierId with
        | none => smSemanticRun storage req category rest
        | some supplier =>
          let semantic_score := (r.score.getD (1/2)) * 100
          match smCalculateMatchScore product supplier req category with
          | none => ([], true)
          | some (match_score, details) =>
            let blended_score := match_score * (7/10) + semantic_score * (3/10)
            let quantity := smGetQuantity req category
            let m : SmMatch :=
              { supplier := supplier, product := product,
                matchScore := blended_score,
                detailsPrice := details.price, detailsQuality := details.quality,
                detailsDelivery := details.delivery,
                detailsSemantic := some semantic_score,
                totalPrice := product.price * (quantity : ℚ) }
            let (tailMs, crashed) := smSemanticRun storage req category rest
            (m :: tailMs, crashed)

/-- The traditional per-product loop (lines 596-648).  A product whose
supplier is missing is skipped; a raising `calculate_match_score` is caught
and replaced by the 50-point defaults (lines 616-622). -/
def smTraditional (storage : SmStorage) (req : ExtractedRequirement)
    (category : String) : List SmMatch :=
  (productsByCategory storage.products category).filterMap (fun product =>
    match findSupplier storage.suppliers product.supplierId with
    | none => none
    | some supplier =>
      match smCalculateMatchScore product supplier req category with
      | some (match_score, details) =>
        let quantity := smGetQuantity req category
        some { supplier := supplier, product := product,
               matchScore := match_score,
               detailsPrice := details.price, detailsQuality := details.quality,
               detailsDelivery := details.delivery,
               totalPrice := product.price * (quantity : ℚ) }
      | none =>
        some { supplier := supplier, product := product,
               matchScore := 50,
               detailsPrice := 50, detailsQuality := 50, detailsDelivery := 50,
               totalPrice := product.price * 1 })

/-- One category of `supplier_matching.match_suppliers_for_rfq` (lines
465-648), with the semantic collaborator's output injected as `sem`:
an empty category yields nothing; a non-empty semantic result list is used
(and `continue` skips the traditional loop) unless the loop crashed, in
which case its partial output is followed by the traditional fallback;
an empty semantic result list (also modelling a collaborator exception
before any result) falls through to the traditional loop. -/
def smProcessCategory (storage : SmStorage) (req : ExtractedRequirement)
    (category : String) (sem : List SemRes) : List SmMatch :=
  if (productsByCategory storage.products category).isEmpty then []
  else if sem.isEmpty then smTraditional storage req category
  else
    let (semMatches, crashed) := smSemanticRun storage req category sem
    if crashed then semMatches ++ smTraditional storage req category
    else semMatches

/-- `supplier_matching.match_suppliers_for_rfq(rfq_id)` (lines 434-658),
with the semantic collaborator modelled as `semFn` (per category the list
of results it returns; `[]` also models its failure, handled by the
fallback).  Unknown RFQ id, missing requirements or no categories yield
`[]`; otherwise all category results are collected and sorted by score,
descending, with Python's stable sort. -/
def smMatchSuppliersForRfq (storage : SmStorage) (semFn : String → List SemRes)
    (rfq_id : ℤ) : List SmMatch :=
  match storage.rfqs.find? (fun r => r.id == rfq_id) with
  | none => []
  | some rfq =>
    match rfq.extractedRequirements with
    | none => []
    | some requirements =>
      if requirements.categories.isEmpty then []
      else
        sortDescBy SmMatch.matchScore
          ((requirements.categories.map
            (fun category => smProcessCategory storage requirements category (semFn category))).flatten)

/-! ## Pipeline of `ai_hardware_matching.match_suppliers_for_rfq` (lines 807-972) -/

/-- A stored RFQ as the AI-hardware engine reads it: the requirements
payload in its dict form. -/
structure AiRfq where
  id : ℤ
  extractedRequirements : Option AiReqDict := none
  userId : ℤ := 0
  deriving DecidableEq

structure AiStorage where
  rfqs : List AiRfq := []
  products : List Product := []
  suppliers : List Supplier := []
  deriving DecidableEq

/-- `vars(product)` → dict (lines 889-892): the `Product` schema fields
become the dict keys, so `computeSpecs` / `memorySpecs` /
`powerConsumption` / `complianceInfo` / `inStock` / `supportedFrameworks`
are absent at top level and only `specifications` carries spec data. -/
def toProductDict (p : Product) : ProductDict :=
  { price := some p.price, specifications := some p.specifications, extra := true }

/-- `vars(supplier)` → dict (lines 895-898): `Supplier` has no `leadTime`
field, so only `deliveryTime` and `country` are present. -/
def toSupplierDict (s : Supplier) : SupplierDict :=
  { country := some s.country, deliveryTime := some s.deliveryTime, extra := true }

/-- The AI-hardware category filter list (lines 859-861). -/
def aiHwCategoryNames : List String :=
  ["gpu", "ai accelerator", "ml accelerator", "tpu", "vpu", "fpga", "asic"]

/-- Category selection of lines 844-865: missing `categories` defaults to
`["GPU", "AI Accelerator"]`; the list is filtered to AI-hardware categories,
and `["GPU"]` is used when nothing remains. -/
def aiHwCategories (cats : Option (List String)) : List String :=
  let categories := cats.getD ["GPU", "AI Accelerator"]
  let filtered := categories.filter (fun c => aiHwCategoryNames.contains c.toLower)
  if filtered.isEmpty then ["GPU"] else filtered

/-- `get_quantity_for_category` of `ai_hardware_matching.py` (lines
606-641), dict branch: the first of `aiHardware`/`gpuRequirements`/`GPUs`
that has a `quantity` key wins, default 1. -/
def aiGetQuantity (requirements : AiReqDict) (category : String) : ℤ :=
  if ["gpu", "accelerator", "ai accelerator"].contains category.toLower then
    (((requirements.aiHardware.bind HwReq.quantity) <|>
      (requirements.gpuRequirements.bind HwReq.quantity) <|>
      (requirements.GPUs.bind HwReq.quantity)).getD 1)
  else 1

/-- One supplier match of the AI-hardware pipeline (`SupplierMatch` with
the five-entry `matchDetails` dict flattened; `estimatedDelivery` and the
post-hoc `alternatives` annotation of the top five — which touch no field a
claim depends on — are omitted). -/
structure AiMatch where
  supplier : Supplier
  product : Product
  matchScore : ℚ
  detailsPrice : ℚ
  detailsPerformance : ℚ
  detailsCompatibility : ℚ
  detailsAvailability : ℚ
  detailsCompliance : ℚ
  totalPrice : ℚ
  complianceNotes : String
  deriving DecidableEq

/-- Lines 838-842 resolve the buyer country.  The `User` schema has no
`country` field, so `hasattr(user, "country")` is always false and the
default is never overridden; the spec's buyer-country scenarios are
exercised through `matchSuppliersWithBuyer` below, which models the loop
body from line 844 on as a function of the resolved buyer country. -/
def aiBuyerCountry : String := "United States"

/-- The body of `ai_hardware_matching.match_suppliers_for_rfq` from line
844 on, as a function of the resolved buyer country: per AI-hardware
category, score every product whose supplier exists (a product whose
scoring raises — zero weight sum — is skipped by the per-product
`except`), then sort by score, descending, with Python's stable sort.
No candidate is ever filtered out for compliance reasons. -/
def matchSuppliersWithBuyer (storage : AiStorage) (requirements : AiReqDict)
    (buyer_country : String) : List AiMatch :=
  let match_results :=
    ((aiHwCategories requirements.categories).map (fun category =>
      (productsByCategory storage.products category).filterMap (fun product =>
        match findSupplier storage.suppliers product.supplierId with
        | none => none
        | some supplier =>
          match calculate_match_score (toProductDict product) (toSupplierDict supplier)
              requirements buyer_country with
          | none => none
          | some (match_score, match_details) =>
            let quantity := aiGetQuantity requirements category
            some { supplier := supplier, product := product,
                   matchScore := match_score,
                   detailsPrice := match_details.price,
                   detailsPerformance := match_details.performance,
                   detailsCompatibility := match_details.compatibility,
                   detailsAvailability := match_details.availability,
                   detailsCompliance := match_details.compliance,
                   totalPrice := product.price * (quantity : ℚ),
                   complianceNotes := match_details.compliance_notes }))).flatten
  sortDescBy AiMatch.matchScore match_results

/-- `ai_hardware_matching.match_suppliers_for_rfq(rfq_id)` (lines 807-972):
unknown RFQ id or missing requirements yield `[]` (the logged error is
surfaced to the caller only as this empty list). -/
def matchSuppliersForRfq (storage : AiStorage) (rfq_id : ℤ) : List AiMatch :=
  match storage.rfqs.find? (fun r => r.id == rfq_id) with
  | none => []
  | some rfq =>
    match rfq.extractedRequirements with
    | none => []
    | some requirements =>
      matchSuppliersWithBuyer storage requirements aiBuyerCountry

/-! ## `ai_hardware_matching.calculate_price_score` (lines 643-688)

A sibling-relative percentile price scorer.  (It is defined in the module
but not called by `match_suppliers_for_rfq`, whose price sub-score is the
banded `aiPriceScore`.) -/

def calculate_price_score (product : Product) (all_products : List Product)
    (criteria : AiCriteria) : ℚ :=
  let price_weight := criteria.price.getD 25
  let same_category := all_products.filter (fun p => p.category == product.category)
  if same_category.isEmpty then 75
  else
    let prices := same_category.map Product.price
    if prices.isEmpty then 75
    else
      let sorted := prices.insertionSort (· ≤ ·)
      match listIdx? product.price sorted with
      | none => 75   -- `ValueError` from `prices.index`
      | some index =>
        let percentile : ℚ := (index : ℚ) / (sorted.length : ℚ)
        let score : ℚ :=
          if price_weight ≥ 40 then 100 - percentile * 120
          else if price_weight ≤ 15 then 100 - percentile * 70
          else 100 - percentile * 100
        max 40 (min 100 score)

/-! ## The ordering the spec claims for the ranked output

Modelled from the spec's ranking sentence (score descending, ties by price
ascending, then candidate id ascending) — stated only to be compared with
what the code produces. -/

def specTieBreakOrder (l : List AiMatch) : Prop :=
  l.Pairwise (fun a b =>
    b.matchScore < a.matchScore ∨
    (b.matchScore = a.matchScore ∧
      (a.product.price < b.product.price ∨
        (a.product.price = b.product.price ∧ a.product.id ≤ b.product.id))))

/-! ## Concrete fixtures used by the counterexample and witness theorems -/

def fxSupplierDE : Supplier :=
  { id := 1, name := "Acme", country := "Germany", deliveryTime := "10-15 days" }

def fxSupplierUS : Supplier :=
  { id := 1, name := "NVIDIA Direct", country := "United States",
    deliveryTime := "10-15 days" }

def fxGpu500 : Product :=
  { id := 1, supplierId := 1, name := "A", category := "GPU", price := 500 }

def fxGpu400 : Product :=
  { id := 2, supplierId := 1, name := "B", category := "GPU", price := 400 }

def fxGpu1500 : Product :=
  { id := 3, supplierId := 1, name := "C", category := "GPU", price := 1500 }

def fxReqGpu : AiReqDict := { categories := some ["GPU"] }

/-- Storage for the ranking counterexample: two candidates with equal
scores, the later (stably kept) one strictly cheaper. -/
def fxStorageTie : AiStorage :=
  { rfqs := [{ id := 1, extractedRequirements := some fxReqGpu }],
    products := [fxGpu500, fxGpu400], suppliers := [fxSupplierDE] }

/-- Storage for the hard-block counterexample: one US-supplied candidate. -/
def fxStorageUS : AiStorage :=
  { rfqs := [{ id := 1, extractedRequirements := some fxReqGpu }],
    products := [fxGpu500], suppliers := [fxSupplierUS] }

/-- Storage with a known RFQ and a non-empty candidate universe whose
requirements payload is missing. -/
def fxStorageNoReqs : AiStorage :=
  { rfqs := [{ id := 1, extractedRequirements := none }],
    products := [fxGpu500], suppliers := [fxSupplierDE] }

/-- A product dict whose `complianceInfo.restrictedCountries` lists Iran. -/
def fxRestrictedProduct : ProductDict :=
  { price := some 500,
    complianceInfo := some { restrictedCountries := some ["Iran", "North Korea"] },
    extra := true }

def fxLaptopReqFields : LaptopRequirements :=
  { processor := some "Intel Core i5", memory := some "16GB DDR4" }

def fxLaptopSpecs : SpecDict :=
  { processor := some "Intel Core i5-1135G7", memory := some "16GB DDR4" }

def fxLaptop999 : Product :=
  { id := 5, supplierId := 1, name := "L", category := "Laptops", price := 999,
    specifications := fxLaptopSpecs, warranty := "1 year" }

def fxLaptop400 : Product :=
  { id := 7, supplierId := 1, name := "C", category := "Laptops", price := 400,
    specifications := fxLaptopSpecs, warranty := "3 years" }

def fxSupplierFast : Supplier :=
  { id := 1, name := "F", country := "Germany", deliveryTime := "5 days" }

/-- Weights 100/100/100: individually in the documented 0..100 range but
summing to 300. -/
def fxReqBigWeights : ExtractedRequirement :=
  { categories := ["Laptops"], laptops := some fxLaptopReqFields,
    criteria := { price := some 100, quality := some 100, delivery := some 100 } }

/-- Weights 50/50/50: summing to 150 rather than 100. -/
def fxReqMidWeights : ExtractedRequirement :=
  { categories := ["Laptops"], laptops := some fxLaptopReqFields,
    criteria := { price := some 50, quality := some 50, delivery := some 50 } }

def fxReqLaptops : ExtractedRequirement :=
  { categories := ["Laptops"], laptops := some fxLaptopReqFields,
    criteria := { price := some 50, quality := some 30, delivery := some 20 } }

def fxSmStorage : SmStorage :=
  { rfqs := [{ id := 3, extractedRequirements := some fxReqLaptops }],
    products := [fxLaptop999], suppliers := [fxSupplierDE] }

/-- All five AI criterion weights zero: their sum is 0 and renormalisation
divides by zero. -/
def fxZeroCriteria : AiCriteria :=
  { price := some 0, performance := some 0, compatibility := some 0,
    availability := some 0, compliance := some 0 }

/-- The two (equal-score) matches the tie-break counterexample produces. -/
def fxTieMatch1 : AiMatch :=
  { supplier := fxSupplierDE, product := fxGpu500, matchScore := 67,
    detailsPrice := 90, detailsPerformance := 50, detailsCompatibility := 50,
    detailsAvailability := 90, detailsCompliance := 80, totalPrice := 500,
    complianceNotes := "Standard international shipping rules apply" }

def fxTieMatch2 : AiMatch :=
  { supplier := fxSupplierDE, product := fxGpu400, matchScore := 67,
    detailsPrice := 90, detailsPerformance := 50, detailsCompatibility := 50,
    detailsAvailability := 90, detailsCompliance := 80, totalPrice := 400,
    complianceNotes := "Standard international shipping rules apply" }

/-- Storage with a known RFQ, requirements present, and no products at all. -/
def fxStorageNoProducts : AiStorage :=
  { rfqs := [{ id := 1, extractedRequirements := some fxReqGpu }],
    products := [], suppliers := [fxSupplierDE] }

/-- A requirements bag demanding only a minimum fp32 compute power `r`. -/
def fxHwMin (r : ℚ) : HwReq := { minComputePower := some r }

/-- A product reporting only an fp32 performance figure `p`. -/
def fxProdFp32 (p : ℚ) : ProductDict :=
  { computeSpecs := some { fp32Performance := some p }, extra := true }

/-- A (truthy) product reporting no compute data at all. -/
def fxProdNoCompute : ProductDict := { extra := true }

/-- Requirements demanding fp32 compute power `r` and `n` tensor cores. -/
def fxHwMinTensor (r : ℚ) (n : ℤ) : HwReq :=
  { minComputePower := some r, minTensorCores := some n }

/-- A product reporting fp32 performance `p` and `m` tensor cores. -/
def fxProdFp32Tensor (p : ℚ) (m : ℤ) : ProductDict :=
  { computeSpecs := some { fp32Performance := some p, tensorCores := some m },
    extra := true }

/-- The semantic-collaborator result list used by the blend witness. -/
def fxSemList : List SemRes := [{ product_id := some 5, score := some (8/10) }]

/-- The blended match produced from `fxSemList` over `fxSmStorage`. -/
def fxBlendMatch : SmMatch :=
  { supplier := fxSupplierDE, product := fxLaptop999, matchScore := 1593/20,
    detailsPrice := 75, detailsQuality := 80, detailsDelivery := 90,
    detailsSemantic := some 80, totalPrice := 999 }

/-! ## Range lemmas for the string comparators -/

lemma half_le_max_half (x : ℚ) : 1/2 ≤ max (1/2) x := le_max_left _ _

lemma max_half_nonneg (x : ℚ) : 0 ≤ max (1/2) x :=
  le_trans (by norm_num) (le_max_left _ _)

lemma max_half_le_one {x : ℚ} (hx : x ≤ 1) : max (1/2) x ≤ 1 :=
  max_le (by norm_num) hx

lemma one_sub_mul_le_one {d k : ℚ} (hd : 0 ≤ d) (hk : 0 ≤ k) : 1 - d * k ≤ 1 := by
  nlinarith

lemma natCast_sub_nonneg {a b : ℕ} (h : b ≤ a) : (0 : ℚ) ≤ (a : ℚ) - (b : ℚ) := by
  have : (b : ℚ) ≤ (a : ℚ) := by exact_mod_cast h
  linarith

lemma compare_processors_range (r s : String) :
    1/2 ≤ compare_processors r s ∧ compare_processors r s ≤ 1 := by
  unfold compare_processors
  dsimp only
  split
  · norm_num
  · split
    · norm_num
    · split
      · split
        · norm_num
        · split
          · norm_num
          · rename_i hgt heq
            refine ⟨half_le_max_half _, max_half_le_one ?_⟩
            have hle : _ ≤ _ := Nat.le_of_not_lt hgt
            exact one_sub_mul_le_one (natCast_sub_nonneg hle) (by norm_num)
      · split
        · split
          · norm_num
          · split
            · norm_num
            · rename_i hgt heq
              refine ⟨half_le_max_half _, max_half_le_one ?_⟩
              have hle : _ ≤ _ := Nat.le_of_not_lt hgt
              exact one_sub_mul_le_one (natCast_sub_nonneg hle) (by norm_num)
        · split
          · norm_num
          · split <;> norm_num

lemma compare_memory_range (r s : String) :
    1/2 ≤ compare_memory r s ∧ compare_memory r s ≤ 1 := by
  unfold compare_memory
  split
  · norm_num
  · split
    · split
      · norm_num
      · rename_i hge
        refine ⟨half_le_max_half _, max_half_le_one ?_⟩
        have hle : _ ≤ _ := Nat.le_of_not_lt (by exact fun h => hge (Nat.le_of_lt h))
        have h0 : (0 : ℚ) ≤ ((_ : ℕ) : ℚ) - ((_ : ℕ) : ℚ) := natCast_sub_nonneg hle
        exact one_sub_mul_le_one (by positivity) (by norm_num)
    · split
      · split
        · norm_num
        · split
          · norm_num
          · rename_i hgt heq
            refine ⟨half_le_max_half _, max_half_le_one ?_⟩
            have hle : _ ≤ _ := Nat.le_of_not_lt hgt
            have h1 : (0 : ℚ) ≤ _ - _ := natCast_sub_nonneg hle
            nlinarith
      · norm_num

lemma compare_storage_range (r s : String) :
    1/2 ≤ compare_storage r s ∧ compare_storage r s ≤ 1 := by
  unfold compare_storage
  split
  · norm_num
  · have htype : ∀ sl : String,
        1/2 ≤ (if strContains sl "nvme" then (1 : ℚ)
               else if strContains sl "ssd" then 8/10 else 1/2) ∧
        (if strContains sl "nvme" then (1 : ℚ)
         else if strContains sl "ssd" then 8/10 else 1/2) ≤ 1 := by
      intro sl; split_ifs <;> norm_num
    have hsize : ∀ rq sp : ℚ,
        1/2 ≤ (if 0 < rq ∧ 0 < sp then
                 if sp ≥ rq then (1 : ℚ)
                 else max (1/2) (1 - (rq - sp) / 256 * (1/10))
               else 7/10) ∧
        (if 0 < rq ∧ 0 < sp then
           if sp ≥ rq then (1 : ℚ)
           else max (1/2) (1 - (rq - sp) / 256 * (1/10))
         else 7/10) ≤ 1 := by
      intro rq sp
      split_ifs with h1 h2
      · norm_num
      · refine ⟨half_le_max_half _, max_half_le_one ?_⟩
        have : sp < rq := lt_of_not_le h2
        nlinarith
      · norm_num
    obtain ⟨hs1, hs2⟩ := hsize
      (match scanFirst (matchDecimalBeforeUnit ["tb".toList]) r.toLower.toList with
       | some t => t * 1024
       | none =>
         match scanFirst (matchNatBeforeUnit ["gb".toList]) r.toLower.toList with
         | some g => (g : ℚ)
         | none => 0)
      (match scanFirst (matchDecimalBeforeUnit ["tb".toList]) s.toLower.toList with
       | some t => t * 1024
       | none =>
         match scanFirst (matchNatBeforeUnit ["gb".toList]) s.toLower.toList with
         | some g => (g : ℚ)
         | none => 0)
    obtain ⟨ht1, ht2⟩ := htype s.toLower
    constructor <;> nlinarith

lemma resScores_entry_range : ∀ kv ∈ resScores, 3/5 ≤ kv.2 ∧ kv.2 ≤ 1 := by
  intro kv hkv
  fin_cases hkv <;> norm_num

lemma displayResLoop_range (r s : String) :
    ∀ (l : List (String × ℚ)) (acc : ℚ),
      (∀ kv ∈ l, 3/5 ≤ kv.2 ∧ kv.2 ≤ 1) →
      1/2 ≤ acc ∧ acc ≤ 1 →
      1/2 ≤ displayResLoop r s l acc ∧ displayResLoop r s l acc ≤ 1 := by
  intro l
  induction l with
  | nil =>
    intro acc _ hacc
    simpa [displayResLoop] using hacc
  | cons kv rest ih =>
    intro acc hl hacc
    obtain ⟨key, score⟩ := kv
    have hsc := hl (key, score) (List.mem_cons_self _ _)
    have hrest : ∀ kv ∈ rest, 3/5 ≤ kv.2 ∧ kv.2 ≤ 1 :=
      fun kv h => hl kv (List.mem_cons_of_mem _ h)
    rw [displayResLoop]
    split
    · exact ⟨le_trans (by norm_num) hsc.1, hsc.2⟩
    · split
      · apply ih _ hrest
        split
        · rename_i kv2 hfind
          have hmem := List.mem_of_find?_eq_some hfind
          have hb := resScores_entry_range kv2 hmem
          constructor
          · refine le_min (by norm_num) ?_
            linarith [hb.1]
          · exact min_le_left _ _
        · exact hacc
      · exact ih _ hrest hacc

lemma compare_display_range (r s : String) :
    1/2 ≤ compare_display r s ∧ compare_display r s ≤ 1 := by
  unfold compare_display
  split
  · norm_num
  · have hres := displayResLoop_range r.toLower s.toLower resScores (7/10)
      resScores_entry_range (by norm_num)
    have hsize : ∀ o₁ o₂ : Option ℚ,
        1/2 ≤ (match o₁, o₂ with
               | some a, some b =>
                 if |b - a| ≤ 1 then (1 : ℚ)
                 else max (1/2) (1 - |b - a| * (1/10))
               | _, _ => 7/10) ∧
        (match o₁, o₂ with
         | some a, some b =>
           if |b - a| ≤ 1 then (1 : ℚ)
           else max (1/2) (1 - |b - a| * (1/10))
         | _, _ => 7/10) ≤ 1 := by
      intro o₁ o₂
      match o₁, o₂ with
      | some a, some b =>
        dsimp only
        split_ifs
        · norm_num
        · exact ⟨half_le_max_half _, max_half_le_one
            (one_sub_mul_le_one (abs_nonneg _) (by norm_num))⟩
      | some _, none => norm_num
      | none, _ => norm_num
    obtain ⟨hs1, hs2⟩ := hsize (scanFirst matchDecimal r.toLower.toList)
      (scanFirst matchDecimal s.toLower.toList)
    constructor <;> nlinarith [hres.1, hres.2]

lemma compare_warranty_range (r s : String) :
    1/2 ≤ compare_warranty r s ∧ compare_warranty r s ≤ 1 := by
  unfold compare_warranty
  split
  · norm_num
  · split
    · split
      · norm_num
      · rename_i hge
        refine ⟨half_le_max_half _, max_half_le_one ?_⟩
        have hle : _ ≤ _ := Nat.le_of_not_lt (fun h => hge (Nat.le_of_lt h))
        exact one_sub_mul_le_one (natCast_sub_nonneg hle) (by norm_num)
    · split_ifs <;> norm_num

/-! ## Range lemmas for the AI-hardware scoring functions -/

lemma sum_map_snd_nonneg (l : List (ℚ × ℚ)) (h : ∀ x ∈ l, 0 ≤ x.2) :
    0 ≤ (l.map Prod.snd).sum := by
  induction l with
  | nil => simp
  | cons a t ih =>
    simp only [List.map_cons, List.sum_cons]
    have h1 := h a (List.mem_cons_self _ _)
    have h2 := ih (fun x hx => h x (List.mem_cons_of_mem _ hx))
    linarith

lemma sum_map_snd_pos (l : List (ℚ × ℚ)) (hne : l ≠ [])
    (h : ∀ x ∈ l, 0 < x.2) : 0 < (l.map Prod.snd).sum := by
  match l with
  | [] => exact absurd rfl hne
  | a :: t =>
    simp only [List.map_cons, List.sum_cons]
    have h1 := h a (List.mem_cons_self _ _)
    have h2 := sum_map_snd_nonneg t (fun x hx => le_of_lt (h x (List.mem_cons_of_mem _ hx)))
    linarith

lemma sum_map_mul_nonneg (l : List (ℚ × ℚ)) (h : ∀ x ∈ l, 0 ≤ x.1 ∧ 0 ≤ x.2) :
    0 ≤ (l.map (fun x => x.1 * x.2)).sum := by
  induction l with
  | nil => simp
  | cons a t ih =>
    simp only [List.map_cons, List.sum_cons]
    have h1 := h a (List.mem_cons_self _ _)
    have h2 := ih (fun x hx => h x (List.mem_cons_of_mem _ hx))
    nlinarith [h1.1, h1.2]

lemma sum_map_mul_le_sum_snd (l : List (ℚ × ℚ))
    (h : ∀ x ∈ l, x.1 ≤ 1 ∧ 0 ≤ x.2) :
    (l.map (fun x => x.1 * x.2)).sum ≤ (l.map Prod.snd).sum := by
  induction l with
  | nil => simp
  | cons a t ih =>
    simp only [List.map_cons, List.sum_cons]
    have h1 := h a (List.mem_cons_self _ _)
    have h2 := ih (fun x hx => h x (List.mem_cons_of_mem _ hx))
    nlinarith [h1.1, h1.2]

lemma weightedAvgOrHalf_range (metrics : List (ℚ × ℚ))
    (h : ∀ x ∈ metrics, (0 ≤ x.1 ∧ x.1 ≤ 1) ∧ 0 < x.2) :
    0 ≤ weightedAvgOrHalf metrics ∧ weightedAvgOrHalf metrics ≤ 1 := by
  unfold weightedAvgOrHalf
  dsimp only
  have hmem : ∀ x ∈ metrics.filter (fun x => decide (x.1 ≠ 1/2)),
      (0 ≤ x.1 ∧ x.1 ≤ 1) ∧ 0 < x.2 :=
    fun x hx => h x (List.mem_of_mem_filter hx)
  split
  · norm_num
  · rename_i hne
    have hpos := sum_map_snd_pos _ hne (fun x hx => (hmem x hx).2)
    constructor
    · exact div_nonneg
        (sum_map_mul_nonneg _ (fun x hx => ⟨(hmem x hx).1.1, le_of_lt (hmem x hx).2⟩))
        (le_of_lt hpos)
    · rw [div_le_one hpos]
      exact sum_map_mul_le_sum_snd _ (fun x hx => ⟨(hmem x hx).1.2, le_of_lt (hmem x hx).2⟩)

lemma fp32MetricScore_range (cs : SpecDict) (r : HwReq) :
    0 ≤ fp32MetricScore cs r ∧ fp32MetricScore cs r ≤ 1 := by
  unfold fp32MetricScore
  rcases cs.fp32Performance with _ | p <;> rcases r.minComputePower with _ | q <;>
    dsimp only <;> try norm_num
  split_ifs <;> norm_num

lemma coreMetricScore_range (po ro : Option ℤ)
    (hpos : ∀ n : ℤ, ro = some n → 0 < n) :
    0 ≤ coreMetricScore po ro ∧ coreMetricScore po ro ≤ 1 := by
  unfold coreMetricScore
  rcases po with _ | p <;> rcases ro with _ | q <;> dsimp only <;> try norm_num
  have hq : 0 < q := hpos q rfl
  split_ifs with hge
  · norm_num
  · have hlt : p < q := lt_of_not_le hge
    refine ⟨le_trans (by norm_num) (half_le_max_half _), max_half_le_one ?_⟩
    have h1 : (0 : ℚ) < (q : ℚ) := by exact_mod_cast hq
    have h2 : (p : ℚ) < (q : ℚ) := by exact_mod_cast hlt
    have h3 : 0 ≤ ((q : ℚ) - (p : ℚ)) / (q : ℚ) :=
      div_nonneg (by linarith) (le_of_lt h1)
    linarith

lemma ratioMetricScore_range (po ro : Option ℚ)
    (hpos : ∀ v : ℚ, ro = some v → 0 < v) :
    0 ≤ ratioMetricScore po ro ∧ ratioMetricScore po ro ≤ 1 := by
  unfold ratioMetricScore
  rcases po with _ | p <;> rcases ro with _ | q <;> dsimp only <;> try norm_num
  have hq : 0 < q := hpos q rfl
  split_ifs with hge
  · norm_num
  · have hlt : p < q := lt_of_not_le hge
    refine ⟨le_trans (by norm_num) (half_le_max_half _), max_half_le_one ?_⟩
    have h3 : 0 ≤ (q - p) / q := div_nonneg (by linarith) (le_of_lt hq)
    linarith

lemma compare_compute_performance_range (required : HwReq) (product : ProductDict)
    (hpos : required.posMinima) :
    0 ≤ compare_compute_performance required product ∧
    compare_compute_performance required product ≤ 1 := by
  obtain ⟨h1, h2, h3, h4⟩ := hpos
  unfold compare_compute_performance
  dsimp only
  split
  · norm_num
  · split
    · norm_num
    · apply weightedAvgOrHalf_range
      intro x hx
      simp only [List.mem_cons, List.not_mem_nil, or_false] at hx
      rcases hx with rfl | rfl | rfl | rfl | rfl
      · exact ⟨fp32MetricScore_range _ _, by norm_num⟩
      · exact ⟨coreMetricScore_range _ _ h1, by norm_num⟩
      · exact ⟨coreMetricScore_range _ _ h2, by norm_num⟩
      · exact ⟨ratioMetricScore_range _ _ h3, by norm_num⟩
      · exact ⟨ratioMetricScore_range _ _ h4, by norm_num⟩

lemma capacityMetricScore_range (ms : SpecDict) (r : HwReq) :
    0 ≤ capacityMetricScore ms r ∧ capacityMetricScore ms r ≤ 1 := by
  unfold capacityMetricScore
  rcases ms.capacity with _ | p <;> rcases r.minMemory with _ | q <;>
    dsimp only <;> try norm_num
  split_ifs <;> norm_num

lemma bandwidthMetricScore_range (ms : SpecDict) (r : HwReq) :
    0 ≤ bandwidthMetricScore ms r ∧ bandwidthMetricScore ms r ≤ 1 := by
  unfold bandwidthMetricScore
  rcases ms.bandwidth with _ | p <;> rcases r.minMemoryBandwidth with _ | q <;>
    dsimp only <;> try norm_num
  split_ifs <;> norm_num

lemma memTypeMetricScore_range (ms : SpecDict) (r : HwReq) :
    0 ≤ memTypeMetricScore ms r ∧ memTypeMetricScore ms r ≤ 1 := by
  unfold memTypeMetricScore
  rcases ms.mtype with _ | p <;> rcases r.memoryType with _ | q <;>
    dsimp only <;> try norm_num
  split
  · norm_num
  · split
    · rename_i req_index prod_index hreq hprod
      split_ifs with hgt
      · norm_num
      · have hle : prod_index ≤ req_index := Nat.le_of_not_lt hgt
        refine ⟨le_trans (by norm_num) (half_le_max_half _), max_half_le_one ?_⟩
        exact one_sub_mul_le_one (natCast_sub_nonneg hle) (by norm_num)
    · norm_num

lemma compare_memory_specs_range (required : HwReq) (product : ProductDict) :
    0 ≤ compare_memory_specs required product ∧
    compare_memory_specs required product ≤ 1 := by
  unfold compare_memory_specs
  dsimp only
  split
  · norm_num
  · split
    · norm_num
    · apply weightedAvgOrHalf_range
      intro x hx
      simp only [List.mem_cons, List.not_mem_nil, or_false] at hx
      rcases hx with rfl | rfl | rfl
      · exact ⟨capacityMetricScore_range _ _, by norm_num⟩
      · exact ⟨bandwidthMetricScore_range _ _, by norm_num⟩
      · exact ⟨memTypeMetricScore_range _ _, by norm_num⟩

lemma compare_power_specs_range (required : HwReq) (product : ProductDict) :
    0 ≤ compare_power_specs required product ∧
    compare_power_specs required product ≤ 1 := by
  unfold compare_power_specs
  dsimp only
  split
  · norm_num
  · split
    · norm_num
    · split
      · split_ifs <;> norm_num
      · norm_num

lemma compare_framework_support_range (required : HwReq) (product : ProductDict) :
    0 ≤ compare_framework_support required product ∧
    compare_framework_support required product ≤ 1 := by
  unfold compare_framework_support
  dsimp only
  split_ifs <;> norm_num

lemma check_compliance_match_range (buyer : String) (product : ProductDict)
    (supplier : SupplierDict) :
    0 ≤ (check_compliance_match buyer product supplier).1 ∧
    (check_compliance_match buyer product supplier).1 ≤ 1 := by
  unfold check_compliance_match
  dsimp only
  split_ifs <;> norm_num

lemma aiPriceScore_range (price : Option ℚ) :
    0 ≤ aiPriceScore price ∧ aiPriceScore price ≤ 1 := by
  unfold aiPriceScore
  rcases price with _ | p <;> dsimp only
  · norm_num
  · split_ifs <;> norm_num

lemma aiAvailabilityScore_range (supplier : SupplierDict) (product : ProductDict) :
    0 ≤ aiAvailabilityScore supplier product ∧
    aiAvailabilityScore supplier product ≤ 1 := by
  unfold aiAvailabilityScore
  dsimp only
  split_ifs <;> norm_num

/-! ## Weight renormalisation and aggregate bounds (AI variant) -/

lemma aiNormWeights_spec (criteria : Option AiCriteria)
    (h1 : 0 ≤ (aiRawWeights criteria).price)
    (h2 : 0 ≤ (aiRawWeights criteria).performance)
    (h3 : 0 ≤ (aiRawWeights criteria).compatibility)
    (h4 : 0 ≤ (aiRawWeights criteria).availability)
    (h5 : 0 ≤ (aiRawWeights criteria).compliance)
    (hnz : (aiRawWeights criteria).total ≠ 0) :
    ∃ w, aiNormWeights criteria = some w ∧
      0 ≤ w.price ∧ 0 ≤ w.performance ∧ 0 ≤ w.compatibility ∧
      0 ≤ w.availability ∧ 0 ≤ w.compliance ∧ w.total = 1 := by
  unfold aiNormWeights
  dsimp only
  by_cases ht1 : (aiRawWeights criteria).total = 1
  · rw [if_pos ht1]
    exact ⟨_, rfl, h1, h2, h3, h4, h5, ht1⟩
  · rw [if_neg ht1, if_neg hnz]
    have htnn : 0 ≤ (aiRawWeights criteria).total := by
      unfold Weights5.total; linarith
    refine ⟨_, rfl, div_nonneg h1 htnn, div_nonneg h2 htnn, div_nonneg h3 htnn,
      div_nonneg h4 htnn, div_nonneg h5 htnn, ?_⟩
    unfold Weights5.total
    dsimp only
    rw [div_add_div_same, div_add_div_same, div_add_div_same, div_add_div_same]
    exact div_self hnz

/-- Unfolding equation for `calculate_match_score` in the successful case. -/
lemma calculate_match_score_eq (product : ProductDict) (supplier : SupplierDict)
    (requirements : AiReqDict) (buyer_country : String) (w : Weights5)
    (hw : aiNormWeights requirements.criteria = some w) :
    calculate_match_score product supplier requirements buyer_country =
      some ((aiPriceScore product.price * w.price +
             compare_compute_performance (aiHwOf requirements) product * w.performance +
             aiCompatibilityScore (aiHwOf requirements) product * w.compatibility +
             aiAvailabilityScore supplier product * w.availability +
             (check_compliance_match buyer_country product supplier).1 * w.compliance) * 100,
        { price := aiPriceScore product.price * 100,
          performance := compare_compute_performance (aiHwOf requirements) product * 100,
          compatibility := aiCompatibilityScore (aiHwOf requirements) product * 100,
          availability := aiAvailabilityScore supplier product * 100,
          compliance := (check_compliance_match buyer_country product supplier).1 * 100,
          compliance_notes := (check_compliance_match buyer_country product supplier).2 }) := by
  unfold calculate_match_score
  rw [hw]

/-- The raising case: a zero weight total means no score is produced. -/
lemma calculate_match_score_eq_none (product : ProductDict) (supplier : SupplierDict)
    (requirements : AiReqDict) (buyer_country : String)
    (hw : aiNormWeights requirements.criteria = none) :
    calculate_match_score product supplier requirements buyer_country = none := by
  unfold calculate_match_score
  rw [hw]

lemma aiCompatibilityScore_range (hw : HwReq) (product : ProductDict) :
    0 ≤ aiCompatibilityScore hw product ∧ aiCompatibilityScore hw product ≤ 1 := by
  have hmem := compare_memory_specs_range hw product
  have hfw := compare_framework_support_range hw product
  have hpow := compare_power_specs_range hw product
  unfold aiCompatibilityScore
  constructor <;> nlinarith [hmem.1, hmem.2, hfw.1, hfw.2, hpow.1, hpow.2]

/-- Existence and bounds for the AI-hardware `calculate_match_score` under
nonnegative criterion weights with nonzero sum and positive required
minima. -/
lemma calculate_match_score_spec (product : ProductDict) (supplier : SupplierDict)
    (requirements : AiReqDict) (buyer_country : String)
    (hpos : (aiHwOf requirements).posMinima)
    (h1 : 0 ≤ (aiRawWeights requirements.criteria).price)
    (h2 : 0 ≤ (aiRawWeights requirements.criteria).performance)
    (h3 : 0 ≤ (aiRawWeights requirements.criteria).compatibility)
    (h4 : 0 ≤ (aiRawWeights requirements.criteria).availability)
    (h5 : 0 ≤ (aiRawWeights requirements.criteria).compliance)
    (hnz : (aiRawWeights requirements.criteria).total ≠ 0) :
    ∃ sc d, calculate_match_score product supplier requirements buyer_country =
        some (sc, d) ∧
      0 ≤ sc ∧ sc ≤ 100 ∧
      0 ≤ d.price ∧ d.price ≤ 100 ∧
      0 ≤ d.performance ∧ d.performance ≤ 100 ∧
      0 ≤ d.compatibility ∧ d.compatibility ≤ 100 ∧
      0 ≤ d.availability ∧ d.availability ≤ 100 ∧
      0 ≤ d.compliance ∧ d.compliance ≤ 100 := by
  obtain ⟨w, hw, hwp, hwperf, hwcompat, hwavail, hwcompl, hwtot⟩ :=
    aiNormWeights_spec requirements.criteria h1 h2 h3 h4 h5 hnz
  have hperf := compare_compute_performance_range (aiHwOf requirements) product hpos
  have hcompat := aiCompatibilityScore_range (aiHwOf requirements) product
  have hpr := aiPriceScore_range product.price
  have hav := aiAvailabilityScore_range supplier product
  have hcm := check_compliance_match_range buyer_country product supplier
  refine ⟨_, _, calculate_match_score_eq product supplier requirements buyer_country w hw,
    ?_, ?_, ?_, ?_, ?_, ?_, ?_, ?_, ?_, ?_, ?_, ?_⟩
  · have t1 := mul_nonneg hpr.1 hwp
    have t2 := mul_nonneg hperf.1 hwperf
    have t3 := mul_nonneg hcompat.1 hwcompat
    have t4 := mul_nonneg hav.1 hwavail
    have t5 := mul_nonneg hcm.1 hwcompl
    linarith
  · have htot : w.price + w.performance + w.compatibility + w.availability +
        w.compliance = 1 := hwtot
    have t1 : aiPriceScore product.price * w.price ≤ w.price :=
      mul_le_of_le_one_left hwp hpr.2
    have t2 : compare_compute_performance (aiHwOf requirements) product * w.performance ≤
        w.performance := mul_le_of_le_one_left hwperf hperf.2
    have t3 : aiCompatibilityScore (aiHwOf requirements) product * w.compatibility ≤
        w.compatibility := mul_le_of_le_one_left hwcompat hcompat.2
    have t4 : aiAvailabilityScore supplier product * w.availability ≤ w.availability :=
      mul_le_of_le_one_left hwavail hav.2
    have t5 : (check_compliance_match buyer_country product supplier).1 * w.compliance ≤
        w.compliance := mul_le_of_le_one_left hwcompl hcm.2
    linarith
  · dsimp only; linarith [hpr.1]
  · dsimp only; linarith [hpr.2]
  · dsimp only; linarith [hperf.1]
  · dsimp only; linarith [hperf.2]
  · dsimp only; linarith [hcompat.1]
  · dsimp only; linarith [hcompat.2]
  · dsimp only; linarith [hav.1]
  · dsimp only; linarith [hav.2]
  · dsimp only; linarith [hcm.1]
  · dsimp only; linarith [hcm.2]

/-- The price entry of the AI-hardware breakdown is the banded
`aiPriceScore` scaled to 0-100, whenever scoring succeeds. -/
lemma calculate_match_score_price_detail (product : ProductDict)
    (supplier : SupplierDict) (requirements : AiReqDict) (buyer_country : String)
    (sc : ℚ) (d : AiScoreDetails)
    (h : calculate_match_score product supplier requirements buyer_country =
      some (sc, d)) :
    d.price = aiPriceScore product.price * 100 := by
  cases hn : aiNormWeights requirements.criteria with
  | none =>
    rw [calculate_match_score_eq_none product supplier requirements buyer_country hn] at h
    exact absurd h (by simp)
  | some w =>
    rw [calculate_match_score_eq product supplier requirements buyer_country w hn] at h
    have := Option.some.inj h
    have hd := congrArg Prod.snd this
    have := congrArg AiScoreDetails.price hd
    exact this.symm

/-- The banded price heuristic is antitone: a lower price never scores
lower. -/
lemma aiPriceScore_mono (p₁ p₂ : ℚ) (hlt : p₁ < p₂) :
    aiPriceScore (some p₂) ≤ aiPriceScore (some p₁) := by
  unfold aiPriceScore
  dsimp only
  split_ifs <;> linarith

/-! ## Aggregate bounds (supplier-matching variant) -/

lemma list_sum_nonneg_of_mem (l : List ℚ) (h : ∀ x ∈ l, 0 ≤ x) : 0 ≤ l.sum := by
  induction l with
  | nil => simp
  | cons a t ih =>
    simp only [List.sum_cons]
    have h1 := h a (List.mem_cons_self _ _)
    have h2 := ih (fun x hx => h x (List.mem_cons_of_mem _ hx))
    linarith

lemma list_sum_le_mul_length (l : List ℚ) (b : ℚ) (h : ∀ x ∈ l, x ≤ b) :
    l.sum ≤ (l.length : ℚ) * b := by
  induction l with
  | nil => simp
  | cons a t ih =>
    simp only [List.sum_cons, List.length_cons]
    have h1 := h a (List.mem_cons_self _ _)
    have h2 := ih (fun x hx => h x (List.mem_cons_of_mem _ hx))
    push_cast
    linarith

lemma listAvg_range (l : List ℚ) (hne : l ≠ [])
    (h : ∀ x ∈ l, 0 ≤ x ∧ x ≤ 100) :
    0 ≤ l.sum / (l.length : ℚ) ∧ l.sum / (l.length : ℚ) ≤ 100 := by
  have hlen : 0 < (l.length : ℚ) := by
    have : 0 < l.length := List.length_pos.mpr hne
    exact_mod_cast this
  constructor
  · exact div_nonneg (list_sum_nonneg_of_mem l (fun x hx => (h x hx).1)) hlen.le
  · rw [div_le_iff₀ hlen]
    have := list_sum_le_mul_length l 100 (fun x hx => (h x hx).2)
    linarith

lemma mem_opt_factor {o : Option String} {f : String → ℚ} {name : String}
    {x : String × ℚ}
    (hx : x ∈ (match o with | some sp => [(name, f sp)] | none => [])) :
    ∃ sp, o = some sp ∧ x = (name, f sp) := by
  cases o with
  | none => simp at hx
  | some sp =>
    simp only [List.mem_singleton] at hx
    exact ⟨sp, rfl, hx⟩

lemma laptopQualityFactors_range (cr : LaptopRequirements) (specs : SpecDict)
    (product : Product) :
    ∀ x ∈ laptopQualityFactors cr specs product, 0 ≤ x.2 ∧ x.2 ≤ 100 := by
  intro x hx
  unfold laptopQualityFactors at hx
  simp only [List.mem_append] at hx
  rcases hx with ((((hx | hx) | hx) | hx) | hx)
  · obtain ⟨sp, -, rfl⟩ := mem_opt_factor hx
    have := compare_processors_range (cr.processor.getD "") sp
    constructor <;> dsimp only <;> nlinarith [this.1, this.2]
  · obtain ⟨sp, -, rfl⟩ := mem_opt_factor hx
    have := compare_memory_range (cr.memory.getD "") sp
    constructor <;> dsimp only <;> nlinarith [this.1, this.2]
  · obtain ⟨sp, -, rfl⟩ := mem_opt_factor hx
    have := compare_storage_range (cr.storage.getD "") sp
    constructor <;> dsimp only <;> nlinarith [this.1, this.2]
  · obtain ⟨sp, -, rfl⟩ := mem_opt_factor hx
    have := compare_display_range (cr.display.getD "") sp
    constructor <;> dsimp only <;> nlinarith [this.1, this.2]
  · simp only [List.mem_singleton] at hx
    subst hx
    have := compare_warranty_range (cr.warranty.getD "") product.warranty
    constructor <;> dsimp only <;> nlinarith [this.1, this.2]

lemma monitorQualityFactors_range (cr : MonitorRequirements) (specs : SpecDict)
    (product : Product) (qf : List (String × ℚ))
    (hqf : monitorQualityFactors cr specs product = some qf) :
    ∀ x ∈ qf, 0 ≤ x.2 ∧ x.2 ≤ 100 := by
  intro x hx
  unfold monitorQualityFactors at hqf
  have hbase : ∀ y ∈
      (match specs.screenSize with
       | some sp => [("screenSize", compare_display (cr.screenSize.getD "") sp * 100)]
       | none => []) ++
      (match specs.resolution with
       | some sp => [("resolution", compare_display (cr.resolution.getD "") sp * 100)]
       | none => []),
      0 ≤ y.2 ∧ y.2 ≤ 100 := by
    intro y hy
    simp only [List.mem_append] at hy
    rcases hy with hy | hy
    · obtain ⟨sp, -, rfl⟩ := mem_opt_factor hy
      have := compare_display_range (cr.screenSize.getD "") sp
      constructor <;> dsimp only <;> nlinarith [this.1, this.2]
    · obtain ⟨sp, -, rfl⟩ := mem_opt_factor hy
      have := compare_display_range (cr.resolution.getD "") sp
      constructor <;> dsimp only <;> nlinarith [this.1, this.2]
  have hwarr := compare_warranty_range (cr.warranty.getD "") product.warranty
  cases hpt : specs.panelTech with
  | none =>
    rw [hpt] at hqf
    dsimp only at hqf
    obtain rfl := Option.some.inj hqf
    simp only [List.mem_append, List.mem_singleton] at hx
    rcases hx with hx | rfl
    · exact hbase x (List.mem_append.mpr hx)
    · constructor <;> dsimp only <;> nlinarith [hwarr.1, hwarr.2]
  | some sp =>
    rw [hpt] at hqf
    dsimp only at hqf
    cases hrp : cr.panelTech with
    | none => rw [hrp] at hqf; exact absurd hqf (by simp)
    | some rp =>
      rw [hrp] at hqf
      dsimp only at hqf
      obtain rfl := Option.some.inj hqf
      simp only [List.mem_append, List.mem_singleton] at hx
      rcases hx with (hx | rfl) | rfl
      · exact hbase x (List.mem_append.mpr hx)
      · dsimp only
        split_ifs <;> norm_num
      · constructor <;> dsimp only <;> nlinarith [hwarr.1, hwarr.2]

lemma smPriceScore_range (p : ℚ) : 40 ≤ smPriceScore p ∧ smPriceScore p ≤ 90 := by
  unfold smPriceScore
  split_ifs <;> norm_num

lemma smDeliveryScore_range (s : String) :
    50 ≤ smDeliveryScore s ∧ smDeliveryScore s ≤ 100 := by
  unfold smDeliveryScore
  dsimp only
  split_ifs <;> norm_num

/-- Bounds for `smAssemble` under bounded factors and nonnegative weights
summing to at most 100. -/
lemma smAssemble_range (product : Product) (supplier : Supplier)
    (requirements : ExtractedRequirement) (qf : List (String × ℚ))
    (hqf : ∀ x ∈ qf, 0 ≤ x.2 ∧ x.2 ≤ 100)
    (hwp : 0 ≤ requirements.criteria.price.getD 50)
    (hwq : 0 ≤ requirements.criteria.quality.getD 30)
    (hwd : 0 ≤ requirements.criteria.delivery.getD 20)
    (hsum : requirements.criteria.price.getD 50 +
      requirements.criteria.quality.getD 30 +
      requirements.criteria.delivery.getD 20 ≤ 100) :
    (0 ≤ (smAssemble product supplier requirements qf).1 ∧
      (smAssemble product supplier requirements qf).1 ≤ 100) ∧
    (0 ≤ (smAssemble product supplier requirements qf).2.price ∧
      (smAssemble product supplier requirements qf).2.price ≤ 100) ∧
    (0 ≤ (smAssemble product supplier requirements qf).2.quality ∧
      (smAssemble product supplier requirements qf).2.quality ≤ 100) ∧
    (0 ≤ (smAssemble product supplier requirements qf).2.delivery ∧
      (smAssemble product supplier requirements qf).2.delivery ≤ 100) := by
  have hpr := smPriceScore_range product.price
  have hdl := smDeliveryScore_range supplier.deliveryTime
  have hq : 0 ≤ (if qf.isEmpty then (50 : ℚ)
      else ((qf.map Prod.snd).sum) / ((qf.length : ℚ))) ∧
      (if qf.isEmpty then (50 : ℚ)
      else ((qf.map Prod.snd).sum) / ((qf.length : ℚ))) ≤ 100 := by
    split_ifs with hemp
    · norm_num
    · have hne : qf.map Prod.snd ≠ [] := by
        intro hnil
        have : qf = [] := by
          cases qf with
          | nil => rfl
          | cons a t => simp at hnil
        exact hemp (by simp [this])
      have := listAvg_range (qf.map Prod.snd) hne (by
        intro x hx
        obtain ⟨y, hy, rfl⟩ := List.mem_map.mp hx
        exact hqf y hy)
      simpa [List.length_map] using this
  unfold smAssemble
  dsimp only
  refine ⟨⟨?_, ?_⟩, ⟨by linarith [hpr.1], by linarith [hpr.2]⟩,
    ⟨hq.1, hq.2⟩, ⟨by linarith [hdl.1], by linarith [hdl.2]⟩⟩
  · have t1 : 0 ≤ smPriceScore product.price * (requirements.criteria.price.getD 50 / 100) :=
      mul_nonneg (by linarith [hpr.1]) (by linarith)
    have t2 : 0 ≤ (if qf.isEmpty then (50 : ℚ)
        else ((qf.map Prod.snd).sum) / ((qf.length : ℚ))) *
        (requirements.criteria.quality.getD 30 / 100) :=
      mul_nonneg hq.1 (by linarith)
    have t3 : 0 ≤ smDeliveryScore supplier.deliveryTime *
        (requirements.criteria.delivery.getD 20 / 100) :=
      mul_nonneg (by linarith [hdl.1]) (by linarith)
    linarith
  · have t1 : smPriceScore product.price * (requirements.criteria.price.getD 50 / 100) ≤
        100 * (requirements.criteria.price.getD 50 / 100) :=
      mul_le_mul_of_nonneg_right (by linarith [hpr.2]) (by linarith)
    have t2 : (if qf.isEmpty then (50 : ℚ)
        else ((qf.map Prod.snd).sum) / ((qf.length : ℚ))) *
        (requirements.criteria.quality.getD 30 / 100) ≤
        100 * (requirements.criteria.quality.getD 30 / 100) :=
      mul_le_mul_of_nonneg_right hq.2 (by linarith)
    have t3 : smDeliveryScore supplier.deliveryTime *
        (requirements.criteria.delivery.getD 20 / 100) ≤
        100 * (requirements.criteria.delivery.getD 20 / 100) :=
      mul_le_mul_of_nonneg_right (by linarith [hdl.2]) (by linarith)
    linarith

/-- Bounds for the supplier-matching `calculate_match_score` whenever it
returns, under nonnegative weights summing to at most 100. -/
lemma smCalculateMatchScore_range (product : Product) (supplier : Supplier)
    (requirements : ExtractedRequirement) (category : String) (t : ℚ)
    (d : SmDetails)
    (h : smCalculateMatchScore product supplier requirements category = some (t, d))
    (hwp : 0 ≤ requirements.criteria.price.getD 50)
    (hwq : 0 ≤ requirements.criteria.quality.getD 30)
    (hwd : 0 ≤ requirements.criteria.delivery.getD 20)
    (hsum : requirements.criteria.price.getD 50 +
      requirements.criteria.quality.getD 30 +
      requirements.criteria.delivery.getD 20 ≤ 100) :
    (0 ≤ t ∧ t ≤ 100) ∧ (0 ≤ d.price ∧ d.price ≤ 100) ∧
    (0 ≤ d.quality ∧ d.quality ≤ 100) ∧ (0 ≤ d.delivery ∧ d.delivery ≤ 100) := by
  unfold smCalculateMatchScore at h
  split_ifs at h with hcl hcm
  · obtain h' := Option.some.inj h
    have := smAssemble_range product supplier requirements
      (laptopQualityFactors (requirements.laptops.getD {}) product.specifications product)
      (laptopQualityFactors_range _ _ _) hwp hwq hwd hsum
    rw [h'] at this
    exact this
  · cases hm : monitorQualityFactors (requirements.monitors.getD {})
        product.specifications product with
    | none => rw [hm] at h; simp at h
    | some qf =>
      rw [hm] at h
      simp only [Option.map_some'] at h
      obtain h' := Option.some.inj h
      have := smAssemble_range product supplier requirements qf
        (monitorQualityFactors_range _ _ _ qf hm) hwp hwq hwd hsum
      rw [h'] at this
      exact this
  · obtain h' := Option.some.inj h
    have ht : t = 50 := (congrArg Prod.fst h').symm
    have hd : d = { price := 50, quality := 50, delivery := 50 } :=
      (congrArg Prod.snd h').symm
    subst ht; subst hd
    norm_num

/-! ## Ranker lemmas: sortedness and stability of the stable descending sort -/

lemma mem_insertDescBy (key : α → ℚ) (m a : α) (l : List α) :
    a ∈ insertDescBy key m l ↔ a = m ∨ a ∈ l := by
  induction l with
  | nil => simp [insertDescBy]
  | cons x xs ih =>
    rw [insertDescBy]
    split
    · simp [List.mem_cons]
    · simp only [List.mem_cons, ih]
      tauto

lemma pairwise_insertDescBy (key : α → ℚ) (m : α) (l : List α)
    (hl : l.Pairwise (fun a b => key b ≤ key a)) :
    (insertDescBy key m l).Pairwise (fun a b => key b ≤ key a) := by
  induction l with
  | nil => simp [insertDescBy]
  | cons x xs ih =>
    rw [insertDescBy]
    rw [List.pairwise_cons] at hl
    obtain ⟨hx, hxs⟩ := hl
    split
    · rename_i hle
      rw [List.pairwise_cons]
      constructor
      · intro b hb
        rcases List.mem_cons.mp hb with rfl | hb
        · exact hle
        · exact le_trans (hx b hb) hle
      · exact List.pairwise_cons.mpr ⟨hx, hxs⟩
    · rename_i hgt
      rw [List.pairwise_cons]
      constructor
      · intro b hb
        rcases (mem_insertDescBy key m b xs).mp hb with rfl | hb
        · exact le_of_lt (lt_of_not_le hgt)
        · exact hx b hb
      · exact ih hxs

lemma pairwise_sortDescBy (key : α → ℚ) (l : List α) :
    (sortDescBy key l).Pairwise (fun a b => key b ≤ key a) := by
  induction l with
  | nil => simp [sortDescBy]
  | cons x xs ih =>
    rw [sortDescBy]
    exact pairwise_insertDescBy key x _ ih

/-- Stability: the equal-score candidates of the sorted list appear in
exactly their original order. -/
lemma filter_insertDescBy (key : α → ℚ) (m : α) (l : List α) (s : ℚ) :
    (insertDescBy key m l).filter (fun x => decide (key x = s)) =
      if key m = s then m :: l.filter (fun x => decide (key x = s))
      else l.filter (fun x => decide (key x = s)) := by
  induction l with
  | nil =>
    rw [insertDescBy]
    by_cases hm : key m = s <;> simp [List.filter, hm]
  | cons x xs ih =>
    rw [insertDescBy]
    by_cases hle : key x ≤ key m
    · rw [if_pos hle]
      by_cases hm : key m = s <;> by_cases hx : key x = s <;>
        simp [List.filter_cons, hm, hx]
    · rw [if_neg hle]
      have hxm : key m < key x := lt_of_not_le hle
      by_cases hm : key m = s
      · have hx : ¬ (key x = s) := by
          intro hxs
          rw [hm, hxs] at hxm
          exact lt_irrefl _ hxm
        rw [if_pos hm, List.filter_cons, List.filter_cons]
        simp [hx, ih, hm]
      · rw [if_neg hm, List.filter_cons, List.filter_cons]
        by_cases hx : key x = s <;> simp [hx, ih, hm]

lemma filter_sortDescBy (key : α → ℚ) (l : List α) (s : ℚ) :
    (sortDescBy key l).filter (fun x => decide (key x = s)) =
      l.filter (fun x => decide (key x = s)) := by
  induction l with
  | nil => simp [sortDescBy]
  | cons x xs ih =>
    rw [sortDescBy, filter_insertDescBy, List.filter_cons]
    by_cases hm : key x = s <;> simp [hm, ih]

/-! ## Pipeline lemmas -/

lemma flatten_nil_of_all (l : List (List β)) (h : ∀ x ∈ l, x = []) :
    l.flatten = [] := by
  induction l with
  | nil => rfl
  | cons a t ih =>
    simp only [List.flatten_cons]
    rw [h a (List.mem_cons_self _ _), ih (fun x hx => h x (List.mem_cons_of_mem _ hx))]
    rfl

lemma matchSuppliersWithBuyer_sorted (storage : AiStorage) (requirements : AiReqDict)
    (buyer_country : String) :
    (matchSuppliersWithBuyer storage requirements buyer_country).Pairwise
      (fun a b => b.matchScore ≤ a.matchScore) := by
  unfold matchSuppliersWithBuyer
  exact pairwise_sortDescBy _ _

lemma matchSuppliersForRfq_sorted (storage : AiStorage) (rfq_id : ℤ) :
    (matchSuppliersForRfq storage rfq_id).Pairwise
      (fun a b => b.matchScore ≤ a.matchScore) := by
  unfold matchSuppliersForRfq
  cases storage.rfqs.find? (fun r => r.id == rfq_id) with
  | none => exact List.Pairwise.nil
  | some rfq =>
    dsimp only
    cases rfq.extractedRequirements with
    | none => exact List.Pairwise.nil
    | some requirements =>
      dsimp only
      exact matchSuppliersWithBuyer_sorted storage requirements _

lemma smMatchSuppliersForRfq_sorted (storage : SmStorage)
    (semFn : String → List SemRes) (rfq_id : ℤ) :
    (smMatchSuppliersForRfq storage semFn rfq_id).Pairwise
      (fun a b => b.matchScore ≤ a.matchScore) := by
  unfold smMatchSuppliersForRfq
  cases storage.rfqs.find? (fun r => r.id == rfq_id) with
  | none => exact List.Pairwise.nil
  | some rfq =>
    dsimp only
    cases rfq.extractedRequirements with
    | none => exact List.Pairwise.nil
    | some requirements =>
      dsimp only
      split
      · exact List.Pairwise.nil
      · exact pairwise_sortDescBy _ _

lemma matchSuppliersForRfq_unknown (storage : AiStorage) (rfq_id : ℤ)
    (h : storage.rfqs.find? (fun r => r.id == rfq_id) = none) :
    matchSuppliersForRfq storage rfq_id = [] := by
  unfold matchSuppliersForRfq
  rw [h]

lemma matchSuppliersForRfq_no_requirements (storage : AiStorage) (rfq_id : ℤ)
    (rfq : AiRfq) (hfind : storage.rfqs.find? (fun r => r.id == rfq_id) = some rfq)
    (hreq : rfq.extractedRequirements = none) :
    matchSuppliersForRfq storage rfq_id = [] := by
  unfold matchSuppliersForRfq
  rw [hfind]
  dsimp only
  rw [hreq]

lemma matchSuppliersForRfq_empty_universe (storage : AiStorage) (rfq_id : ℤ)
    (rfq : AiRfq) (requirements : AiReqDict)
    (hfind : storage.rfqs.find? (fun r => r.id == rfq_id) = some rfq)
    (hreq : rfq.extractedRequirements = some requirements)
    (hempty : ∀ cat ∈ aiHwCategories requirements.categories,
      productsByCategory storage.products cat = []) :
    matchSuppliersForRfq storage rfq_id = [] := by
  unfold matchSuppliersForRfq
  rw [hfind]
  dsimp only
  rw [hreq]
  dsimp only
  unfold matchSuppliersWithBuyer
  dsimp only
  rw [flatten_nil_of_all _ (by
    intro x hx
    obtain ⟨cat, hcat, rfl⟩ := List.mem_map.mp hx
    rw [hempty cat hcat]
    rfl)]
  rfl

/-- With no semantic results (collaborator empty or failed), a category is
scored by the traditional loop alone: heuristic scores, no blending. -/
lemma smProcessCategory_no_semantic (storage : SmStorage)
    (req : ExtractedRequirement) (category : String) :
    smProcessCategory storage req category [] = smTraditional storage req category := by
  unfold smProcessCategory
  by_cases hp : (productsByCategory storage.products category).isEmpty
  · rw [if_pos hp]
    unfold smTraditional
    rw [List.isEmpty_iff.mp hp]
    rfl
  · rw [if_neg hp]
    rfl

/-- With non-empty semantic results and no crash, a category's matches are
exactly the semantic-loop output. -/
lemma smProcessCategory_semantic (storage : SmStorage)
    (req : ExtractedRequirement) (category : String) (sem : List SemRes)
    (ms : List SmMatch) (hne : ¬ sem.isEmpty)
    (hp : ¬ (productsByCategory storage.products category).isEmpty)
    (hrun : smSemanticRun storage req category sem = (ms, false)) :
    smProcessCategory storage req category sem = ms := by
  unfold smProcessCategory
  rw [if_neg hp, if_neg hne, hrun]
  rfl

/-- Every match the crash-free semantic loop produces carries the blended
score `heuristic × 0.7 + (similarity × 100) × 0.3`. -/
lemma smSemanticRun_blend (storage : SmStorage) (req : ExtractedRequirement)
    (category : String) :
    ∀ (sem : List SemRes) (ms : List SmMatch),
      smSemanticRun storage req category sem = (ms, false) →
      ∀ m ∈ ms, ∃ r ∈ sem, ∃ pid product supplier h d,
        r.product_id = some pid ∧
        findProduct storage.products pid = some product ∧
        findSupplier storage.suppliers product.supplierId = some supplier ∧
        smCalculateMatchScore product supplier req category = some (h, d) ∧
        m.matchScore = h * (7/10) + ((r.score.getD (1/2)) * 100) * (3/10) ∧
        m.detailsSemantic = some ((r.score.getD (1/2)) * 100) := by
  intro sem
  induction sem with
  | nil =>
    intro ms hrun m hm
    rw [smSemanticRun] at hrun
    obtain rfl := (Prod.mk.injEq _ _ _ _ ▸ hrun).1.symm
    simp at hm
  | cons r rest ih =>
    intro ms hrun m hm
    rw [smSemanticRun] at hrun
    rcases hpid : r.product_id with _ | pid
    · rw [hpid] at hrun
      obtain ⟨r', hr', hrest⟩ := ih ms hrun m hm
      exact ⟨r', List.mem_cons_of_mem _ hr', hrest⟩
    · rw [hpid] at hrun
      dsimp only at hrun
      rcases hprod : findProduct storage.products pid with _ | product
      · rw [hprod] at hrun
        obtain ⟨r', hr', hrest⟩ := ih ms hrun m hm
        exact ⟨r', List.mem_cons_of_mem _ hr', hrest⟩
      · rw [hprod] at hrun
        dsimp only at hrun
        rcases hsup : findSupplier storage.suppliers product.supplierId with _ | supplier
        · rw [hsup] at hrun
          obtain ⟨r', hr', hrest⟩ := ih ms hrun m hm
          exact ⟨r', List.mem_cons_of_mem _ hr', hrest⟩
        · rw [hsup] at hrun
          dsimp only at hrun
          rcases hcalc : smCalculateMatchScore product supplier req category with _ | msd
          · rw [hcalc] at hrun
            dsimp only at hrun
            have := congrArg Prod.snd hrun
            simp at this
          · rw [hcalc] at hrun
            dsimp only at hrun
            rcases hrest : smSemanticRun storage req category rest with ⟨tailMs, crashed⟩
            rw [hrest] at hrun
            dsimp only at hrun
            obtain ⟨hms, hcr⟩ := Prod.mk.injEq _ _ _ _ ▸ hrun
            subst hcr
            rcases msd with ⟨match_score, details⟩
            rw [← hms] at hm
            rcases List.mem_cons.mp hm with rfl | hm'
            · exact ⟨r, List.mem_cons_self _ _, pid, product, supplier,
                match_score, details, hpid, hprod, hsup, hcalc, rfl, rfl⟩
            · obtain ⟨r', hr', hrest'⟩ := ih tailMs hrest m hm'
              exact ⟨r', List.mem_cons_of_mem _ hr', hrest'⟩

/-- Every match the traditional loop produces carries the plain heuristic
score (or the 50-point default of the per-product exception handler). -/
lemma smTraditional_score (storage : SmStorage) (req : ExtractedRequirement)
    (category : String) :
    ∀ m ∈ smTraditional storage req category,
      m.detailsSemantic = none ∧
      ((∃ d, smCalculateMatchScore m.product m.supplier req category =
          some (m.matchScore, d)) ∨
       (smCalculateMatchScore m.product m.supplier req category = none ∧
        m.matchScore = 50)) := by
  intro m hm
  unfold smTraditional at hm
  obtain ⟨product, hprod, hg⟩ := List.mem_filterMap.mp hm
  rcases hsup : findSupplier storage.suppliers product.supplierId with _ | supplier
  · rw [hsup] at hg
    exact absurd hg (by simp)
  · rw [hsup] at hg
    dsimp only at hg
    rcases hcalc : smCalculateMatchScore product supplier req category with _ | msd
    · rw [hcalc] at hg
      dsimp only at hg
      obtain rfl := Option.some.inj hg
      exact ⟨rfl, Or.inr ⟨hcalc, rfl⟩⟩
    · rw [hcalc] at hg
      dsimp only at hg
      rcases msd with ⟨match_score, details⟩
      obtain rfl := Option.some.inj hg
      exact ⟨rfl, Or.inl ⟨details, hcalc⟩⟩

/-! ## Claim theorems -/

/-- C1.  The claim says a candidate that is hard-blocked (compliance score
0 — here the spec's own scenario: buyer country Iran, a US supplier, where
`check_compliance_match` returns 0 and the note "prohibited") never appears
in the ranked list of `match_suppliers_for_rfq`.  The code computes the 0
sub-score and the note but appends the candidate unconditionally: the
hard-blocked candidate appears in the output (merely ranked by its weighted
score), and the `restrictedCountries` hard block behaves the same way at
the scoring level. -/
theorem C1_hard_block_not_filtered :
    (matchSuppliersWithBuyer fxStorageUS fxReqGpu "Iran").map
      (fun m => (m.product.id, m.detailsCompliance, m.complianceNotes)) =
      [(1, 0, "Exports from United States to Iran are prohibited")] ∧
    (matchSuppliersWithBuyer fxStorageUS fxReqGpu "Iran").length = 1 ∧
    check_compliance_match "Iran" fxRestrictedProduct (toSupplierDict fxSupplierUS) =
      (0, "Export to Iran is restricted for this product") := by
  refine ⟨?_, ?_, ?_⟩ <;> with_unfolding_all rfl

/-- C4 (counterexample).  The ranked output of `match_suppliers_for_rfq` is
not ordered by the claimed tie-break: on two candidates with equal final
score 67, candidate id 1 (price 500) is kept before candidate id 2 (price
400), so ties are not broken by price ascending. -/
theorem C4_tie_break_counterexample :
    matchSuppliersForRfq fxStorageTie 1 = [fxTieMatch1, fxTieMatch2] ∧
    ¬ specTieBreakOrder (matchSuppliersForRfq fxStorageTie 1) := by
  have heq : matchSuppliersForRfq fxStorageTie 1 = [fxTieMatch1, fxTieMatch2] := by
    with_unfolding_all rfl
  refine ⟨heq, ?_⟩
  intro h
  rw [heq] at h
  unfold specTieBreakOrder at h
  rw [List.pairwise_cons] at h
  have hrel := h.1 fxTieMatch2 (List.mem_singleton.mpr rfl)
  rcases hrel with hlt | ⟨-, hp | ⟨hp, -⟩⟩
  · exact absurd hlt (by norm_num [fxTieMatch1, fxTieMatch2])
  · exact absurd hp (by norm_num [fxTieMatch1, fxTieMatch2, fxGpu500, fxGpu400])
  · exact absurd hp (by norm_num [fxTieMatch1, fxTieMatch2, fxGpu500, fxGpu400])

/-- C4 (amended).  Both `match_suppliers_for_rfq` pipelines sort their
output by final match score, descending; equal-score results keep the
order in which the engine produced them (Python's sort is stable), with no
price or candidate-id tie-break. -/
theorem C4_rank_order_amended :
    (∀ (storage : AiStorage) (rfq_id : ℤ),
      (matchSuppliersForRfq storage rfq_id).Pairwise
        (fun a b => b.matchScore ≤ a.matchScore)) ∧
    (∀ (storage : SmStorage) (semFn : String → List SemRes) (rfq_id : ℤ),
      (smMatchSuppliersForRfq storage semFn rfq_id).Pairwise
        (fun a b => b.matchScore ≤ a.matchScore)) ∧
    (∀ (l : List AiMatch) (s : ℚ),
      (sortDescBy AiMatch.matchScore l).filter (fun m => decide (m.matchScore = s)) =
        l.filter (fun m => decide (m.matchScore = s))) :=
  ⟨matchSuppliersForRfq_sorted, smMatchSuppliersForRfq_sorted,
    fun l s => filter_sortDescBy AiMatch.matchScore l s⟩

/-- C6.  `parse_delivery_time` takes the numbers of the string as given:
a range averages the first two numbers and a single number is returned
as-is — so "2 weeks" yields 2.0, not the 14.0 days that the claim (and the
repo's own `test_parse_delivery_time_weeks`) expects; "weeks" is never
converted to days.  Missing or unparseable input yields 30.0. -/
theorem C6_parse_delivery_time_eval :
    parse_delivery_time "2 weeks" = 2 ∧
    parse_delivery_time "3-4 weeks" = 7/2 ∧
    parse_delivery_time "10-15 days" = 25/2 ∧
    parse_delivery_time "5 days" = 5 ∧
    parse_delivery_time "" = 30 ∧
    parse_delivery_time "immediate" = 30 := by
  refine ⟨?_, ?_, ?_, ?_, ?_, ?_⟩ <;> with_unfolding_all rfl

/-- C9 (counterexample).  A storage whose RFQ 1 exists and whose candidate
universe is non-empty, but whose requirements payload is missing: the
engine surfaces its error return (the empty list) even though the call is
neither an unknown RFQ id nor an empty candidate universe — so errors are
not surfaced *exactly* for those two cases. -/
theorem C9_error_surface_counterexample :
    (fxStorageNoReqs.rfqs.find? (fun r => r.id == 1)).isSome = true ∧
    (productsByCategory fxStorageNoReqs.products "GPU").length = 1 ∧
    matchSuppliersForRfq fxStorageNoReqs 1 = [] := by
  refine ⟨?_, ?_, ?_⟩ <;> with_unfolding_all rfl

/-- C9 (amended).  The AI-hardware engine never raises (every failure is
caught); it returns the empty list — its only error surface — for an
unknown RFQ id, for a missing requirements payload, and for a candidate
universe that is empty across all processed categories. -/
theorem C9_error_surface_amended :
    (∀ (storage : AiStorage) (rfq_id : ℤ),
      storage.rfqs.find? (fun r => r.id == rfq_id) = none →
      matchSuppliersForRfq storage rfq_id = []) ∧
    (∀ (storage : AiStorage) (rfq_id : ℤ) (rfq : AiRfq),
      storage.rfqs.find? (fun r => r.id == rfq_id) = some rfq →
      rfq.extractedRequirements = none →
      matchSuppliersForRfq storage rfq_id = []) ∧
    (∀ (storage : AiStorage) (rfq_id : ℤ) (rfq : AiRfq) (requirements : AiReqDict),
      storage.rfqs.find? (fun r => r.id == rfq_id) = some rfq →
      rfq.extractedRequirements = some requirements →
      (∀ cat ∈ aiHwCategories requirements.categories,
        productsByCategory storage.products cat = []) →
      matchSuppliersForRfq storage rfq_id = []) :=
  ⟨matchSuppliersForRfq_unknown, matchSuppliersForRfq_no_requirements,
    matchSuppliersForRfq_empty_universe⟩

/-- C9 (witness): the three amended error cases at concrete storages. -/
theorem C9_error_surface_witness :
    matchSuppliersForRfq { rfqs := [], products := [], suppliers := [] } 1 = [] ∧
    matchSuppliersForRfq fxStorageNoReqs 1 = [] ∧
    matchSuppliersForRfq fxStorageNoProducts 1 = [] :=
  ⟨C9_error_surface_amended.1 _ 1 (by with_unfolding_all rfl),
   C9_error_surface_amended.2.1 _ 1 { id := 1, extractedRequirements := none }
     (by with_unfolding_all rfl) rfl,
   C9_error_surface_amended.2.2 _ 1 { id := 1, extractedRequirements := some fxReqGpu }
     fxReqGpu (by with_unfolding_all rfl) (by with_unfolding_all rfl)
     (fun cat _ => rfl)⟩

/-- C2 (counterexample).  `supplier_matching.calculate_match_score` with
criterion weights 100/100/100 — each inside the documented 0..100 range —
returns an overall score of 270, far outside [0, 100] (its breakdown
sub-scores 90/80/100 are each fine): the applied weights are `weight/100`
with no renormalisation, so the total is unbounded. -/
theorem C2_score_exceeds_100_counterexample :
    smCalculateMatchScore fxLaptop400 fxSupplierFast fxReqBigWeights "Laptops" =
      some (270, { price := 90, quality := 80, delivery := 100 }) ∧
    (100 : ℚ) < 270 := by
  refine ⟨?_, by norm_num⟩
  with_unfolding_all rfl

/-- C2 (amended).  The breakdown sub-scores of both scoring functions
always lie in [0, 100]; the overall score lies in [0, 100] provided the
criterion weights are nonnegative and — AI-hardware variant — sum to a
nonzero total (it is then renormalised) with the required performance
minima positive, or — supplier variant — sum to at most 100. -/
theorem C2_score_bounds_amended :
    (∀ (product : ProductDict) (supplier : SupplierDict) (requirements : AiReqDict)
      (buyer_country : String),
      (aiHwOf requirements).posMinima →
      0 ≤ (aiRawWeights requirements.criteria).price →
      0 ≤ (aiRawWeights requirements.criteria).performance →
      0 ≤ (aiRawWeights requirements.criteria).compatibility →
      0 ≤ (aiRawWeights requirements.criteria).availability →
      0 ≤ (aiRawWeights requirements.criteria).compliance →
      (aiRawWeights requirements.criteria).total ≠ 0 →
      ∃ sc d, calculate_match_score product supplier requirements buyer_country =
          some (sc, d) ∧
        0 ≤ sc ∧ sc ≤ 100 ∧
        0 ≤ d.price ∧ d.price ≤ 100 ∧
        0 ≤ d.performance ∧ d.performance ≤ 100 ∧
        0 ≤ d.compatibility ∧ d.compatibility ≤ 100 ∧
        0 ≤ d.availability ∧ d.availability ≤ 100 ∧
        0 ≤ d.compliance ∧ d.compliance ≤ 100) ∧
    (∀ (product : Product) (supplier : Supplier) (requirements : ExtractedRequirement)
      (category : String) (t : ℚ) (d : SmDetails),
      smCalculateMatchScore product supplier requirements category = some (t, d) →
      0 ≤ requirements.criteria.price.getD 50 →
      0 ≤ requirements.criteria.quality.getD 30 →
      0 ≤ requirements.criteria.delivery.getD 20 →
      requirements.criteria.price.getD 50 + requirements.criteria.quality.getD 30 +
        requirements.criteria.delivery.getD 20 ≤ 100 →
      (0 ≤ t ∧ t ≤ 100) ∧ (0 ≤ d.price ∧ d.price ≤ 100) ∧
      (0 ≤ d.quality ∧ d.quality ≤ 100) ∧ (0 ≤ d.delivery ∧ d.delivery ≤ 100)) :=
  ⟨calculate_match_score_spec, smCalculateMatchScore_range⟩

/-- C2 (witness): the amended bounds applied at concrete inputs — the
AI-hardware engine on a GPU candidate with default weights, and the
supplier engine on the laptop fixture with weights 50/30/20. -/
theorem C2_score_bounds_witness :
    (∃ sc d, calculate_match_score (toProductDict fxGpu500) (toSupplierDict fxSupplierDE)
        fxReqGpu "United States" = some (sc, d) ∧
      0 ≤ sc ∧ sc ≤ 100 ∧
      0 ≤ d.price ∧ d.price ≤ 100 ∧
      0 ≤ d.performance ∧ d.performance ≤ 100 ∧
      0 ≤ d.compatibility ∧ d.compatibility ≤ 100 ∧
      0 ≤ d.availability ∧ d.availability ≤ 100 ∧
      0 ≤ d.compliance ∧ d.compliance ≤ 100) ∧
    ((0 ≤ (159 : ℚ)/2 ∧ (159 : ℚ)/2 ≤ 100) ∧ (0 ≤ (75 : ℚ) ∧ (75 : ℚ) ≤ 100) ∧
      (0 ≤ (80 : ℚ) ∧ (80 : ℚ) ≤ 100) ∧ (0 ≤ (90 : ℚ) ∧ (90 : ℚ) ≤ 100)) :=
  ⟨C2_score_bounds_amended.1 (toProductDict fxGpu500) (toSupplierDict fxSupplierDE)
      fxReqGpu "United States"
      ⟨fun n h => Option.noConfusion h, fun n h => Option.noConfusion h,
       fun v h => Option.noConfusion h, fun v h => Option.noConfusion h⟩
      (by rw [show (aiRawWeights fxReqGpu.criteria).price = 1/4 from by with_unfolding_all rfl]; norm_num)
      (by rw [show (aiRawWeights fxReqGpu.criteria).performance = 2/5 from by with_unfolding_all rfl]; norm_num)
      (by rw [show (aiRawWeights fxReqGpu.criteria).compatibility = 3/20 from by with_unfolding_all rfl]; norm_num)
      (by rw [show (aiRawWeights fxReqGpu.criteria).availability = 1/10 from by with_unfolding_all rfl]; norm_num)
      (by rw [show (aiRawWeights fxReqGpu.criteria).compliance = 1/10 from by with_unfolding_all rfl]; norm_num)
      (by rw [show (aiRawWeights fxReqGpu.criteria).total = 1 from by with_unfolding_all rfl]; norm_num),
   C2_score_bounds_amended.2 fxLaptop999 fxSupplierDE fxReqLaptops "Laptops"
      (159/2) { price := 75, quality := 80, delivery := 90 }
      (by with_unfolding_all rfl)
      (by rw [show fxReqLaptops.criteria.price.getD 50 = 50 from by with_unfolding_all rfl]; norm_num)
      (by rw [show fxReqLaptops.criteria.quality.getD 30 = 30 from by with_unfolding_all rfl]; norm_num)
      (by rw [show fxReqLaptops.criteria.delivery.getD 20 = 20 from by with_unfolding_all rfl]; norm_num)
      (by rw [show fxReqLaptops.criteria.price.getD 50 = 50 from by with_unfolding_all rfl,
          show fxReqLaptops.criteria.quality.getD 30 = 30 from by with_unfolding_all rfl,
          show fxReqLaptops.criteria.delivery.getD 20 = 20 from by with_unfolding_all rfl]; norm_num)⟩

/-- C3 (counterexample).  The supplier-matching aggregator applies weights
50/50/50 as 0.5/0.5/0.5 without renormalising: the concrete total 135
cannot be written as a convex combination (weights summing to 1) of its own
sub-scores 90/80/100, so the applied weights do not sum to 1; and in the
AI-hardware aggregator an all-zero weight input is never renormalised at
all — the division by the zero sum raises (modelled as `none`). -/
theorem C3_weights_not_renormalized_counterexample :
    smCalculateMatchScore fxLaptop400 fxSupplierFast fxReqMidWeights "Laptops" =
      some (135, { price := 90, quality := 80, delivery := 100 }) ∧
    (¬ ∃ w₁ w₂ w₃ : ℚ, 0 ≤ w₁ ∧ 0 ≤ w₂ ∧ 0 ≤ w₃ ∧ w₁ + w₂ + w₃ = 1 ∧
      135 = 90 * w₁ + 80 * w₂ + 100 * w₃) ∧
    aiNormWeights (some fxZeroCriteria) = none := by
  refine ⟨by with_unfolding_all rfl, ?_, by with_unfolding_all rfl⟩
  rintro ⟨w₁, w₂, w₃, h1, h2, h3, hs, he⟩
  linarith

/-- C3 (amended).  In the AI-hardware aggregator, whenever the five
criterion weights have a nonzero sum they are renormalised by dividing by
that sum, and the applied weights sum to exactly 1; a zero sum raises
instead, and the supplier-matching aggregator applies `weight/100` with no
renormalisation at all. -/
theorem C3_weights_renormalized_amended :
    ∀ criteria : Option AiCriteria, (aiRawWeights criteria).total ≠ 0 →
      ∃ w, aiNormWeights criteria = some w ∧
        w.price + w.performance + w.compatibility + w.availability + w.compliance = 1 := by
  intro criteria hnz
  unfold aiNormWeights
  dsimp only
  by_cases ht1 : (aiRawWeights criteria).total = 1
  · rw [if_pos ht1]
    exact ⟨_, rfl, ht1⟩
  · rw [if_neg ht1, if_neg hnz]
    refine ⟨_, rfl, ?_⟩
    dsimp only
    rw [div_add_div_same, div_add_div_same, div_add_div_same, div_add_div_same]
    exact div_self hnz

/-- C3 (witness): the default weights (25/40/15/10/10) sum to 1 after the
divide-by-100 step, and the renormalised weights sum to 1. -/
theorem C3_weights_renormalized_witness :
    ∃ w, aiNormWeights none = some w ∧
      w.price + w.performance + w.compatibility + w.availability + w.compliance = 1 :=
  C3_weights_renormalized_amended none
    (by rw [show (aiRawWeights none).total = 1 from by with_unfolding_all rfl]; norm_num)

/-- C5.  The in-pipeline price sub-score of the AI-hardware engine is the
price band `aiPriceScore`: for two candidates identical except price, the
cheaper one's price sub-score is never lower, and at the claim's concrete
prices $500 vs $1500 it is strictly greater (90 vs 80); the percentile
scorer `calculate_price_score` agrees on that concrete scenario (100 vs
50). -/
theorem C5_price_monotonic :
    (∀ (product : ProductDict) (supplier : SupplierDict) (requirements : AiReqDict)
      (buyer_country : String) (p₁ p₂ sc₁ sc₂ : ℚ) (d₁ d₂ : AiScoreDetails),
      p₁ < p₂ →
      calculate_match_score { product with price := some p₁ } supplier requirements
        buyer_country = some (sc₁, d₁) →
      calculate_match_score { product with price := some p₂ } supplier requirements
        buyer_country = some (sc₂, d₂) →
      d₂.price ≤ d₁.price) ∧
    (∀ (product : ProductDict) (supplier : SupplierDict) (requirements : AiReqDict)
      (buyer_country : String) (sc₁ sc₂ : ℚ) (d₁ d₂ : AiScoreDetails),
      calculate_match_score { product with price := some 500 } supplier requirements
        buyer_country = some (sc₁, d₁) →
      calculate_match_score { product with price := some 1500 } supplier requirements
        buyer_country = some (sc₂, d₂) →
      d₂.price < d₁.price) ∧
    (calculate_price_score fxGpu500 [fxGpu500, fxGpu1500] {} = 100 ∧
     calculate_price_score fxGpu1500 [fxGpu500, fxGpu1500] {} = 50) := by
  refine ⟨?_, ?_, ?_, ?_⟩
  · intro product supplier requirements buyer_country p₁ p₂ sc₁ sc₂ d₁ d₂ hlt h₁ h₂
    have e₁ := calculate_match_score_price_detail _ _ _ _ _ _ h₁
    have e₂ := calculate_match_score_price_detail _ _ _ _ _ _ h₂
    rw [e₁, e₂]
    have := aiPriceScore_mono p₁ p₂ hlt
    nlinarith
  · intro product supplier requirements buyer_country sc₁ sc₂ d₁ d₂ h₁ h₂
    have e₁ := calculate_match_score_price_detail _ _ _ _ _ _ h₁
    have e₂ := calculate_match_score_price_detail _ _ _ _ _ _ h₂
    rw [e₁, e₂]
    rw [show aiPriceScore (some 500) = 9/10 from by with_unfolding_all rfl,
        show aiPriceScore (some 1500) = 8/10 from by with_unfolding_all rfl]
    norm_num
  · set_option maxRecDepth 4000 in with_unfolding_all rfl
  · set_option maxRecDepth 4000 in with_unfolding_all rfl

/-- C5 (witness): the monotone and strict conclusions at concrete inputs
(prices 100 < 2000, and the $500/$1500 scenario, on an otherwise empty
truthy product with default weights). -/
theorem C5_price_monotonic_witness :
    ((80 : ℚ) ≤ 90) ∧ ((80 : ℚ) < 90) := by
  have hm := C5_price_monotonic.1 { extra := true } { extra := true } fxReqGpu
    "United States" 100 2000 66 (127/2)
    { price := 90, performance := 50, compatibility := 50, availability := 80,
      compliance := 80,
      compliance_notes := "Standard international shipping rules apply" }
    { price := 80, performance := 50, compatibility := 50, availability := 80,
      compliance := 80,
      compliance_notes := "Standard international shipping rules apply" }
    (by norm_num) (by with_unfolding_all rfl) (by with_unfolding_all rfl)
  have hs := C5_price_monotonic.2.1 { extra := true } { extra := true } fxReqGpu
    "United States" 66 (127/2)
    { price := 90, performance := 50, compatibility := 50, availability := 80,
      compliance := 80,
      compliance_notes := "Standard international shipping rules apply" }
    { price := 80, performance := 50, compatibility := 50, availability := 80,
      compliance := 80,
      compliance_notes := "Standard international shipping rules apply" }
    (by with_unfolding_all rfl) (by with_unfolding_all rfl)
  exact ⟨hm, hs⟩

lemma weightedAvgOrHalf_all_neutral (l : List (ℚ × ℚ)) (h : ∀ x ∈ l, x.1 = 1/2) :
    weightedAvgOrHalf l = 1/2 := by
  unfold weightedAvgOrHalf
  dsimp only
  have hfil : l.filter (fun x => decide (x.1 ≠ 1/2)) = [] := by
    rw [List.filter_eq_nil_iff]
    intro a ha
    simp [h a ha]
  rw [hfil]
  rfl

/-- The fp32 metric lands exactly on the neutral 0.5 when the product's
figure is between 60% and 80% of the requirement. -/
lemma fp32MetricScore_neutral (cs : SpecDict) (req : HwReq) (r p : ℚ)
    (hcs : cs.fp32Performance = some p) (hreq : req.minComputePower = some r)
    (hr : 0 < r) (h1 : (6/10) * r ≤ p) (h2 : p < (8/10) * r) :
    fp32MetricScore cs req = 1/2 := by
  unfold fp32MetricScore
  rw [hcs, hreq]
  dsimp only
  rw [if_neg (not_le.mpr (by linarith)), if_neg (not_le.mpr (by linarith)),
    if_neg (not_le.mpr (by linarith)), if_pos (by linarith)]

/-- C7.  With no semantic results for a category (the collaborator returned
nothing or failed), the engine uses the traditional loop and every match
carries the plain heuristic score unchanged (or the 50-point default of the
per-product exception handler); with semantic results and no crash, the
category's matches are exactly the semantic-loop output, and every such
match's final score is `heuristic × 0.7 + (similarity × 100) × 0.3`. -/
theorem C7_semantic_blend :
    (∀ (storage : SmStorage) (req : ExtractedRequirement) (category : String),
      smProcessCategory storage req category [] = smTraditional storage req category) ∧
    (∀ (storage : SmStorage) (req : ExtractedRequirement) (category : String),
      ∀ m ∈ smTraditional storage req category,
        m.detailsSemantic = none ∧
        ((∃ d, smCalculateMatchScore m.product m.supplier req category =
            some (m.matchScore, d)) ∨
         (smCalculateMatchScore m.product m.supplier req category = none ∧
          m.matchScore = 50))) ∧
    (∀ (storage : SmStorage) (req : ExtractedRequirement) (category : String)
      (sem : List SemRes) (ms : List SmMatch),
      ¬ sem.isEmpty → ¬ (productsByCategory storage.products category).isEmpty →
      smSemanticRun storage req category sem = (ms, false) →
      smProcessCategory storage req category sem = ms) ∧
    (∀ (storage : SmStorage) (req : ExtractedRequirement) (category : String)
      (sem : List SemRes) (ms : List SmMatch),
      smSemanticRun storage req category sem = (ms, false) →
      ∀ m ∈ ms, ∃ r ∈ sem, ∃ pid product supplier h d,
        r.product_id = some pid ∧
        findProduct storage.products pid = some product ∧
        findSupplier storage.suppliers product.supplierId = some supplier ∧
        smCalculateMatchScore product supplier req category = some (h, d) ∧
        m.matchScore = h * (7/10) + ((r.score.getD (1/2)) * 100) * (3/10) ∧
        m.detailsSemantic = some ((r.score.getD (1/2)) * 100)) :=
  ⟨smProcessCategory_no_semantic, smTraditional_score,
   fun storage req category sem ms hne hp hrun =>
     smProcessCategory_semantic storage req category sem ms hne hp hrun,
   fun storage req category sem ms hrun =>
     smSemanticRun_blend storage req category sem ms hrun⟩

/-- C7 (witness): on the laptop fixture, the non-semantic path equals the
traditional loop, the semantic path returns exactly the blended match, and
that match satisfies the 0.7/0.3 blend equation. -/
theorem C7_semantic_blend_witness :
    (smProcessCategory fxSmStorage fxReqLaptops "Laptops" [] =
      smTraditional fxSmStorage fxReqLaptops "Laptops") ∧
    (smProcessCategory fxSmStorage fxReqLaptops "Laptops" fxSemList = [fxBlendMatch]) ∧
    (∃ r ∈ fxSemList, ∃ pid product supplier h d,
      r.product_id = some pid ∧
      findProduct fxSmStorage.products pid = some product ∧
      findSupplier fxSmStorage.suppliers product.supplierId = some supplier ∧
      smCalculateMatchScore product supplier fxReqLaptops "Laptops" = some (h, d) ∧
      fxBlendMatch.matchScore = h * (7/10) + ((r.score.getD (1/2)) * 100) * (3/10) ∧
      fxBlendMatch.detailsSemantic = some ((r.score.getD (1/2)) * 100)) :=
  ⟨C7_semantic_blend.1 fxSmStorage fxReqLaptops "Laptops",
   C7_semantic_blend.2.2.1 fxSmStorage fxReqLaptops "Laptops" fxSemList [fxBlendMatch]
     (by rw [show fxSemList.isEmpty = false from rfl]; simp)
     (by rw [show (productsByCategory fxSmStorage.products "Laptops").isEmpty = false
           from by with_unfolding_all rfl]; simp)
     (by with_unfolding_all rfl),
   C7_semantic_blend.2.2.2 fxSmStorage fxReqLaptops "Laptops" fxSemList [fxBlendMatch]
     (by with_unfolding_all rfl) fxBlendMatch (List.mem_singleton.mpr rfl)⟩

/-- C8.  Every spec comparator returns the neutral 0.5 when either side of
the comparison is missing or empty: the five string comparators on an empty
requirement or spec string, and the four dict comparators on an empty
requirements dict or an empty product dict. -/
theorem C8_missing_fields_neutral :
    (∀ s, compare_processors "" s = 1/2) ∧ (∀ r, compare_processors r "" = 1/2) ∧
    (∀ s, compare_memory "" s = 1/2) ∧ (∀ r, compare_memory r "" = 1/2) ∧
    (∀ s, compare_storage "" s = 1/2) ∧ (∀ r, compare_storage r "" = 1/2) ∧
    (∀ s, compare_display "" s = 1/2) ∧ (∀ r, compare_display r "" = 1/2) ∧
    (∀ s, compare_warranty "" s = 1/2) ∧ (∀ r, compare_warranty r "" = 1/2) ∧
    (∀ p, compare_compute_performance {} p = 1/2) ∧
    (∀ r, compare_compute_performance r {} = 1/2) ∧
    (∀ p, compare_memory_specs {} p = 1/2) ∧
    (∀ r, compare_memory_specs r {} = 1/2) ∧
    (∀ p, compare_power_specs {} p = 1/2) ∧
    (∀ r, compare_power_specs r {} = 1/2) ∧
    (∀ p, compare_framework_support {} p = 1/2) ∧
    (∀ r, compare_framework_support r {} = 1/2) := by
  have hreq : ({} : HwReq).truthy = false := rfl
  have hprod : ({} : ProductDict).truthy = false := rfl
  refine ⟨?_, ?_, ?_, ?_, ?_, ?_, ?_, ?_, ?_, ?_, ?_, ?_, ?_, ?_, ?_, ?_, ?_, ?_⟩ <;>
    intro x
  · unfold compare_processors; rw [if_pos (Or.inl rfl)]
  · unfold compare_processors; rw [if_pos (Or.inr rfl)]
  · unfold compare_memory; rw [if_pos (Or.inl rfl)]
  · unfold compare_memory; rw [if_pos (Or.inr rfl)]
  · unfold compare_storage; rw [if_pos (Or.inl rfl)]
  · unfold compare_storage; rw [if_pos (Or.inr rfl)]
  · unfold compare_display; rw [if_pos (Or.inl rfl)]
  · unfold compare_display; rw [if_pos (Or.inr rfl)]
  · unfold compare_warranty; rw [if_pos (Or.inl rfl)]
  · unfold compare_warranty; rw [if_pos (Or.inr rfl)]
  · unfold compare_compute_performance; rw [if_pos (Or.inl (by rw [hreq]; simp))]
  · unfold compare_compute_performance; rw [if_pos (Or.inr (by rw [hprod]; simp))]
  · unfold compare_memory_specs; rw [if_pos (Or.inl (by rw [hreq]; simp))]
  · unfold compare_memory_specs; rw [if_pos (Or.inr (by rw [hprod]; simp))]
  · unfold compare_power_specs; rw [if_pos (Or.inl (by rw [hreq]; simp))]
  · unfold compare_power_specs; rw [if_pos (Or.inr (by rw [hprod]; simp))]
  · unfold compare_framework_support; rw [if_pos (Or.inl (by rw [hreq]; simp))]
  · unfold compare_framework_support; rw [if_pos (Or.inr (by rw [hprod]; simp))]

/-- C10.  In `compare_compute_performance` a metric scoring exactly 0.5 is
dropped from the weighted average: a product whose only present figure is
an fp32 performance between 60% and 80% of the requirement (individual
score 0.5) scores the overall neutral 0.5 — the same as a product that
reports no compute data at all; and when a second metric (tensor cores,
meeting its requirement) is present, the 0.5 fp32 metric is excluded
entirely and the result is that other metric's score alone (1.0, its 0.4
fp32 weight discarded). -/
theorem C10_neutral_score_excluded :
    (∀ r p : ℚ, 0 < r → (6/10) * r ≤ p → p < (8/10) * r →
      compare_compute_performance (fxHwMin r) (fxProdFp32 p) = 1/2 ∧
      compare_compute_performance (fxHwMin r) fxProdNoCompute = 1/2) ∧
    (∀ (r p : ℚ) (n m : ℤ), 0 < r → (6/10) * r ≤ p → p < (8/10) * r → n ≤ m →
      compare_compute_performance (fxHwMinTensor r n) (fxProdFp32Tensor p m) = 1) := by
  constructor
  · intro r p hr h1 h2
    constructor
    · unfold compare_compute_performance
      rw [if_neg (by
        rw [show (fxHwMin r).truthy = true from rfl,
          show (fxProdFp32 p).truthy = true from rfl]
        simp)]
      dsimp only
      rw [show resolveSpecs (fxProdFp32 p).computeSpecs (fxProdFp32 p) =
        ({ fp32Performance := some p } : SpecDict) from rfl]
      rw [if_neg (by
        rw [show ({ fp32Performance := some p } : SpecDict).truthy = true from rfl]
        simp)]
      apply weightedAvgOrHalf_all_neutral
      intro x hx
      simp only [List.mem_cons, List.not_mem_nil, or_false] at hx
      rcases hx with rfl | rfl | rfl | rfl | rfl
      · exact fp32MetricScore_neutral { fp32Performance := some p } (fxHwMin r)
          r p rfl rfl hr h1 h2
      · rfl
      · rfl
      · rfl
      · rfl
    · with_unfolding_all rfl
  · intro r p n m hr h1 h2 hnm
    unfold compare_compute_performance
    rw [if_neg (by
      rw [show (fxHwMinTensor r n).truthy = true from rfl,
        show (fxProdFp32Tensor p m).truthy = true from rfl]
      simp)]
    dsimp only
    rw [show resolveSpecs (fxProdFp32Tensor p m).computeSpecs (fxProdFp32Tensor p m) =
      ({ fp32Performance := some p, tensorCores := some m } : SpecDict) from rfl]
    rw [if_neg (by
      rw [show ({ fp32Performance := some p, tensorCores := some m } : SpecDict).truthy =
        true from rfl]
      simp)]
    rw [fp32MetricScore_neutral
      ({ fp32Performance := some p, tensorCores := some m } : SpecDict)
      (fxHwMinTensor r n) r p rfl rfl hr h1 h2]
    rw [show coreMetricScore
        ({ fp32Performance := some p, tensorCores := some m } : SpecDict).tensorCores
        (fxHwMinTensor r n).minTensorCores = coreMetricScore (some m) (some n) from rfl]
    rw [show coreMetricScore (some m) (some n) = 1 from by
      unfold coreMetricScore
      dsimp only
      rw [if_pos hnm]]
    rw [show coreMetricScore
        ({ fp32Performance := some p, tensorCores := some m } : SpecDict).cudaCores
        (fxHwMinTensor r n).minCudaCores = 1/2 from by with_unfolding_all rfl]
    rw [show ratioMetricScore
        ({ fp32Performance := some p, tensorCores := some m } : SpecDict).int8Performance
        (fxHwMinTensor r n).minInt8Performance = 1/2 from by with_unfolding_all rfl]
    rw [show ratioMetricScore
        ({ fp32Performance := some p, tensorCores := some m } : SpecDict).fp16Performance
        (fxHwMinTensor r n).minFp16Performance = 1/2 from by with_unfolding_all rfl]
    with_unfolding_all rfl

/-- C10 (witness): requirement 10 TFLOPS against 7 TFLOPS (70%, metric
score 0.5) with and without compute data, and with 200 tensor cores against
a 100-core requirement. -/
theorem C10_neutral_score_excluded_witness :
    (compare_compute_performance (fxHwMin 10) (fxProdFp32 7) = 1/2 ∧
     compare_compute_performance (fxHwMin 10) fxProdNoCompute = 1/2) ∧
    compare_compute_performance (fxHwMinTensor 10 100) (fxProdFp32Tensor 7 200) = 1 :=
  ⟨C10_neutral_score_excluded.1 10 7 (by norm_num) (by norm_num) (by norm_num),
   C10_neutral_score_excluded.2 10 7 100 200 (by norm_num) (by norm_num)
     (by norm_num) (by norm_num)⟩

end RfqMatch

